import Mathlib

/-!
# EcoSort: a verification development

A shallow embedding of the two source files of the repository:

* `server.js`: the prompt builder `buildSystemPrompt`, the handlers of
  `POST /api/classify-text` and `POST /api/classify-image`, the origin check
  of the CORS middleware with its allow-list `ALLOWED_ORIGINS`, and the
  rate limiter mounted on `/api`;
* `EcoSort.jsx`: the dimension computation of `resizeImage` and the
  aggregation of `StatsTab`.

Conventions of the embedding.

* A JavaScript number is a `JsNumber`, an IEEE 754 double: `JSON.parse` reads
  a number as the nearest double (overflowing to `Infinity`, underflowing to
  zero), `+` and `*` round their exact result to the nearest double, and
  `Number.prototype.toString` writes the shortest decimal that reads back as
  the double.
* A JavaScript value that crosses a JSON boundary is a `JsonValue`;
  `undefined` (an absent property) is `none : Option JsonValue`.  What
  `res.json` sends is the value as `JSON.stringify` writes it: `jsonWire`.
  An object is the list of its own properties in the order of their
  insertion (JavaScript enumerates the keys that are array indices first; the
  objects written out below have none).
* Strings are sequences of Unicode scalar values.  `JSON.parse` works on the
  UTF-16 code units of its input, as the JavaScript function does; an escape
  that denotes a lone surrogate becomes U+FFFD.
* The classification oracle (`model.generateContent` followed by
  `result.response.text()`) is a function from what it is given to an
  `OracleOutcome`: either it throws, or it replies with a text.  A handler
  returns its HTTP response together with the list of oracle invocations it
  made.
* The target size of `resizeImage` is computed in exact rationals, and the
  section on floating-point rounding shows that its bounds do not depend on
  this: they hold for every rounding of the intermediate results within the
  relative error of double arithmetic.
-/

namespace EcoSort

/-! ## JavaScript numbers -/

/-- A JavaScript number: an IEEE 754 double. `finite neg mant exp` is the
value `mant * 2 ^ exp`, negated when `neg`; the numbers made by the functions
below are in canonical form: zero is `finite neg 0 0`, a normal number has
`2 ^ 52 ≤ mant < 2 ^ 53` and `-1074 ≤ exp ≤ 971`, a subnormal number has
`0 < mant < 2 ^ 52` and `exp = -1074`. -/
inductive JsNumber where
  | finite (neg : Bool) (mant : Nat) (exp : Int) : JsNumber
  | infinite (neg : Bool) : JsNumber
  | nan : JsNumber
  deriving DecidableEq

/-- The quotient `n / d` rounded to the nearest integer, a tie going to the
even one (`d > 0`). -/
def roundHalfEven (n d : Nat) : Nat :=
  if 2 * (n % d) < d then n / d
  else if d < 2 * (n % d) then n / d + 1
  else if n / d % 2 = 0 then n / d else n / d + 1

/-- Whether `2 ^ k ≤ p / q`, for `q > 0`. -/
def pow2LeRatio (k : Int) (p q : Nat) : Bool :=
  if 0 ≤ k then decide (q * 2 ^ k.toNat ≤ p) else decide (q ≤ p * 2 ^ (-k).toNat)

/-- The number of halvings that bring `n` below 2, at most `fuel` of them. -/
def halvings : Nat → Nat → Nat
  | 0, _ => 0
  | fuel + 1, n => if n < 2 then 0 else halvings fuel (n / 2) + 1

/-- The integer `k` with `2 ^ k ≤ n < 2 ^ (k + 1)`, for `n > 0`. -/
def floorLog2 (n : Nat) : Nat := halvings n n

/-- The integer `k` with `2 ^ k ≤ p / q < 2 ^ (k + 1)`, for `p, q > 0`. -/
def floorLog2Ratio (p q : Nat) : Int :=
  if pow2LeRatio ((floorLog2 p : Int) - (floorLog2 q : Int)) p q
  then (floorLog2 p : Int) - (floorLog2 q : Int)
  else (floorLog2 p : Int) - (floorLog2 q : Int) - 1

/-- The quotient `(p / q) / 2 ^ e` rounded to the nearest integer, ties to
even. -/
def scaledRound (p q : Nat) (e : Int) : Nat :=
  if 0 ≤ e then roundHalfEven p (q * 2 ^ e.toNat) else roundHalfEven (p * 2 ^ (-e).toNat) q

/-- The double nearest to `p / q` (`q > 0`), negated when `neg`: rounding to
nearest, ties to even, with 53 bits of precision, gradual underflow below
`2 ^ (-1022)` and overflow to infinity. -/
def roundRatio (neg : Bool) (p q : Nat) : JsNumber :=
  if p = 0 then JsNumber.finite neg 0 0
  else
    let e := max (floorLog2Ratio p q - 52) (-1074)
    let m := scaledRound p q e
    if m = 0 then JsNumber.finite neg 0 0
    else if m = 2 ^ 53 then
      (if 971 < e + 1 then JsNumber.infinite neg else JsNumber.finite neg (2 ^ 52) (e + 1))
    else if 971 < e then JsNumber.infinite neg
    else JsNumber.finite neg m e

/-- The double nearest to `m * 2 ^ e`. -/
def roundScaled (neg : Bool) (m : Nat) (e : Int) : JsNumber :=
  if 0 ≤ e then roundRatio neg (m * 2 ^ e.toNat) 1 else roundRatio neg m (2 ^ (-e).toNat)

/-- The double that a decimal literal `m * 10 ^ e` denotes. The number has
`n` digits before the decimal point; beyond 310 it overflows and below -330
it underflows, whatever the digits. -/
def JsNumber.ofDecimal (neg : Bool) (m : Nat) (e : Int) : JsNumber :=
  if m = 0 then JsNumber.finite neg 0 0
  else if 310 < ((Nat.toDigits 10 m).length : Int) + e then JsNumber.infinite neg
  else if ((Nat.toDigits 10 m).length : Int) + e < -330 then JsNumber.finite neg 0 0
  else if 0 ≤ e then roundRatio neg (m * 10 ^ e.toNat) 1
  else roundRatio neg m (10 ^ (-e).toNat)

/-- The double of a natural number. -/
def JsNumber.ofNat (n : Nat) : JsNumber := roundRatio false n 1


/-- The double zero, positive. -/
def JsNumber.zero : JsNumber := JsNumber.finite false 0 0

/-- The integer `m`, negated when `neg`. -/
def signedMant (neg : Bool) (m : Nat) : Int :=
  if neg then -(m : Int) else (m : Int)

/-- The operator `+` on numbers: the exact sum, rounded to the nearest
double. A sum that is exactly zero is `-0` only when both terms are `-0`. -/
def JsNumber.add : JsNumber → JsNumber → JsNumber
  | JsNumber.nan, _ => JsNumber.nan
  | _, JsNumber.nan => JsNumber.nan
  | JsNumber.infinite a, JsNumber.infinite b =>
    if a = b then JsNumber.infinite a else JsNumber.nan
  | JsNumber.infinite a, JsNumber.finite _ _ _ => JsNumber.infinite a
  | JsNumber.finite _ _ _, JsNumber.infinite b => JsNumber.infinite b
  | JsNumber.finite na ma ea, JsNumber.finite nb mb eb =>
    if signedMant na (ma * 2 ^ (ea - min ea eb).toNat)
        + signedMant nb (mb * 2 ^ (eb - min ea eb).toNat) = 0 then
      JsNumber.finite (na && nb) 0 0
    else
      roundScaled
        (decide (signedMant na (ma * 2 ^ (ea - min ea eb).toNat)
          + signedMant nb (mb * 2 ^ (eb - min ea eb).toNat) < 0))
        (signedMant na (ma * 2 ^ (ea - min ea eb).toNat)
          + signedMant nb (mb * 2 ^ (eb - min ea eb).toNat)).natAbs
        (min ea eb)

/-- The operator `*` on numbers: the exact product, rounded to the nearest
double. -/
def JsNumber.mul : JsNumber → JsNumber → JsNumber
  | JsNumber.nan, _ => JsNumber.nan
  | _, JsNumber.nan => JsNumber.nan
  | JsNumber.infinite a, JsNumber.infinite b => JsNumber.infinite (a != b)
  | JsNumber.infinite a, JsNumber.finite nb mb _ =>
    if mb = 0 then JsNumber.nan else JsNumber.infinite (a != nb)
  | JsNumber.finite na ma _, JsNumber.infinite b =>
    if ma = 0 then JsNumber.nan else JsNumber.infinite (na != b)
  | JsNumber.finite na ma ea, JsNumber.finite nb mb eb =>
    roundScaled (na != nb) (ma * mb) (ea + eb)

/-- The function `Math.round`: the integer nearest to the number, a half
going up; a result that is zero keeps the sign of the argument. -/
def JsNumber.round : JsNumber → JsNumber
  | JsNumber.finite neg m e =>
    if 0 ≤ e then JsNumber.finite neg m e
    else if (2 * signedMant neg m + 2 ^ (-e).toNat) / (2 * 2 ^ (-e).toNat) = 0 then
      JsNumber.finite neg 0 0
    else
      roundScaled
        (decide ((2 * signedMant neg m + 2 ^ (-e).toNat) / (2 * 2 ^ (-e).toNat) < 0))
        ((2 * signedMant neg m + 2 ^ (-e).toNat) / (2 * 2 ^ (-e).toNat)).natAbs 0
  | x => x

/-- The operator `<` on numbers. -/
def JsNumber.lt : JsNumber → JsNumber → Bool
  | JsNumber.nan, _ => false
  | _, JsNumber.nan => false
  | JsNumber.infinite a, JsNumber.infinite b => a && !b
  | JsNumber.infinite a, JsNumber.finite _ _ _ => a
  | JsNumber.finite _ _ _, JsNumber.infinite b => !b
  | JsNumber.finite na ma ea, JsNumber.finite nb mb eb =>
    decide (signedMant na (ma * 2 ^ (ea - min ea eb).toNat)
      < signedMant nb (mb * 2 ^ (eb - min ea eb).toNat))

/-- Whether the number is `NaN`. -/
def JsNumber.isNaN : JsNumber → Bool
  | JsNumber.nan => true
  | _ => false

/-- Whether the sign bit of the number is set. -/
def JsNumber.isNegative : JsNumber → Bool
  | JsNumber.finite neg _ _ => neg
  | JsNumber.infinite neg => neg
  | JsNumber.nan => false

/-- The function `Math.min` on two numbers: `NaN` when one of them is, and
`-0` is below `+0`. -/
def JsNumber.min (a b : JsNumber) : JsNumber :=
  if a.isNaN || b.isNaN then JsNumber.nan
  else if a.lt b then a
  else if b.lt a then b
  else if a.isNegative then a else b

/-- The conversion of a number to boolean: `0`, `-0` and `NaN` are falsy. -/
def JsNumber.truthy : JsNumber → Bool
  | JsNumber.finite _ m _ => decide (m ≠ 0)
  | JsNumber.infinite _ => true
  | JsNumber.nan => false

/-- The least `j` from `j0` on with `q ≤ p * 10 ^ j`, searched `fuel` steps. -/
def leastShift : Nat → Nat → Nat → Nat → Nat
  | 0, _, _, j => j
  | fuel + 1, p, q, j => if q ≤ p * 10 ^ j then j else leastShift fuel p q (j + 1)

/-- The integer `n` with `10 ^ (n - 1) ≤ p / q < 10 ^ n`, for `p, q > 0`
and `p / q` in the range of the doubles. -/
def decimalPoint (p q : Nat) : Int :=
  if q ≤ p then ((Nat.toDigits 10 (p / q)).length : Int)
  else 1 - (leastShift 400 p q 1 : Int)

/-- The candidate with the decimal exponent `t` for the digits of the
positive double `x = p / q`: the integer nearest to `x / 10 ^ t` when
`s * 10 ^ t` reads back as `x` for it, otherwise the next nearest when it
does; `none` when neither reads back as `x`. -/
def digitsAt (x : JsNumber) (p q : Nat) (t : Int) : Option Nat :=
  let n := if 0 ≤ t then p else p * 10 ^ (-t).toNat
  let d := if 0 ≤ t then q * 10 ^ t.toNat else q
  let near := roundHalfEven n d
  let other := if near = n / d then n / d + 1 else n / d
  if JsNumber.ofDecimal false near t = x then some near
  else if JsNumber.ofDecimal false other t = x then some other
  else none

/-- The shortest digits that read back as the positive double `x = p / q`,
whose decimal point is at `n`: `k` digits are tried from `k` up to 17, which
always suffice. The result is the integer `s` and the exponent `t` of
`s * 10 ^ t`. -/
def shortestDigits (x : JsNumber) (p q : Nat) (n : Int) : Nat → Nat → Nat × Int
  | 0, k => (roundHalfEven (if 0 ≤ n - k then p else p * 10 ^ (-(n - k)).toNat)
      (if 0 ≤ n - k then q * 10 ^ (n - k).toNat else q), n - k)
  | fuel + 1, k =>
    match digitsAt x p q (n - k) with
    | some s => (s, n - k)
    | none => shortestDigits x p q n fuel (k + 1)

/-- A run of `n` zero digits. -/
def zeros (n : Nat) : List Char :=
  List.replicate n (Char.ofNat 48)

/-- The decimal digits of a natural number without its trailing zeros. -/
def significantDigits (n : Nat) : List Char :=
  ((Nat.toDigits 10 n).reverse.dropWhile (fun c => c == Char.ofNat 48)).reverse

/-- The exponent part of `Number.prototype.toString`, for the decimal exponent `e`. -/
def exponentText (e : Int) : String :=
  (if e < 0 then "e-" else "e+") ++ String.mk (Nat.toDigits 10 e.natAbs)

/-- The layout of `Number.prototype.toString` for the positive decimal
`s * 10 ^ t`: with `k` significant digits and the decimal point after the
`n`-th, plain digits when `k ≤ n ≤ 21`, a decimal point inside when
`0 < n ≤ 21`, leading zeros when `-6 < n ≤ 0`, and exponent form otherwise. -/
def layoutDecimal (s : Nat) (t : Int) : String :=
  let ds := significantDigits s
  let k : Int := ds.length
  let n : Int := (Nat.toDigits 10 s).length + t
  if k ≤ n ∧ n ≤ 21 then String.mk (ds ++ zeros (n - k).toNat)
  else if 0 < n ∧ n ≤ 21 then
    String.mk (ds.take n.toNat) ++ "." ++ String.mk (ds.drop n.toNat)
  else if -6 < n ∧ n ≤ 0 then "0." ++ String.mk (zeros (-n).toNat ++ ds)
  else if k = 1 then String.mk ds ++ exponentText (n - 1)
  else String.mk (ds.take 1) ++ "." ++ String.mk (ds.drop 1) ++ exponentText (n - 1)

/-- The function `Number.prototype.toString`: the shortest decimal that
reads back as the number, in the layout of `layoutDecimal`. -/
def numberToString : JsNumber → String
  | JsNumber.nan => "NaN"
  | JsNumber.infinite neg => if neg then "-Infinity" else "Infinity"
  | JsNumber.finite neg m e =>
    if m = 0 then "0"
    else
      let p := if 0 ≤ e then m * 2 ^ e.toNat else m
      let q := if 0 ≤ e then 1 else 2 ^ (-e).toNat
      let st := shortestDigits (JsNumber.finite false m e) p q (decimalPoint p q) 16 1
      (if neg then "-" else "") ++ layoutDecimal st.1 st.2

/-! ## JSON values -/

/-- A JavaScript value that can be the result of `JSON.parse`. -/
inductive JsonValue where
  | null : JsonValue
  | bool (b : Bool) : JsonValue
  | num (x : JsNumber) : JsonValue
  | str (s : String) : JsonValue
  | arr (xs : List JsonValue) : JsonValue
  | obj (kvs : List (String × JsonValue)) : JsonValue

/-- The UTF-16 code units of one Unicode scalar value. -/
def charUnits (c : Char) : List Nat :=
  if c.toNat < 65536 then [c.toNat]
  else [55296 + (c.toNat - 65536) / 1024, 56320 + (c.toNat - 65536) % 1024]

/-- The UTF-16 code units of a string: the form in which JavaScript holds it. -/
def codeUnits (s : String) : List Nat :=
  s.toList.flatMap charUnits

/-- Whether a code unit is a high (leading) surrogate. -/
def isHighSurrogate (u : Nat) : Bool :=
  decide (55296 ≤ u) && decide (u < 56320)

/-- Whether a code unit is a low (trailing) surrogate. -/
def isLowSurrogate (u : Nat) : Bool :=
  decide (56320 ≤ u) && decide (u < 57344)

/-- One code unit that is not part of a surrogate pair, as a scalar value. -/
def unitChar (u : Nat) : Char :=
  if isHighSurrogate u || isLowSurrogate u then Char.ofNat 65533 else Char.ofNat u

/-- Decoding of UTF-16 code units; `pending` is a high surrogate read just
before, still waiting for its low surrogate. -/
def decodeUnits : Option Nat → List Nat → List Char
  | none, [] => []
  | some hi, [] => [unitChar hi]
  | none, u :: r => if isHighSurrogate u then decodeUnits (some u) r else unitChar u :: decodeUnits none r
  | some hi, u :: r =>
    if isLowSurrogate u then
      Char.ofNat (65536 + (hi - 55296) * 1024 + (u - 56320)) :: decodeUnits none r
    else if isHighSurrogate u then unitChar hi :: decodeUnits (some u) r
    else unitChar hi :: unitChar u :: decodeUnits none r

/-- The string made of the given UTF-16 code units. -/
def unitsToString (us : List Nat) : String :=
  String.mk (decodeUnits none us)

/-! ## `JSON.parse` -/

/-- Skips JSON white space: space, tab, line feed, carriage return. -/
def skipWs : List Nat → List Nat
  | 32 :: r => skipWs r
  | 9 :: r => skipWs r
  | 10 :: r => skipWs r
  | 13 :: r => skipWs r
  | cs => cs

/-- The value of a hexadecimal digit. -/
def hexVal (c : Nat) : Option Nat :=
  if 48 ≤ c ∧ c ≤ 57 then some (c - 48)
  else if 97 ≤ c ∧ c ≤ 102 then some (c - 87)
  else if 65 ≤ c ∧ c ≤ 70 then some (c - 55)
  else none

/-- The body of a JSON string, read after its opening quote (34) up to the
closing quote: the code units it denotes, and the rest of the input.
92 is the backslash. -/
def parseStringUnits : List Nat → List Nat → Option (List Nat × List Nat)
  | [], _ => none
  | 34 :: r, acc => some (acc.reverse, r)
  | 92 :: 34 :: r, acc => parseStringUnits r (34 :: acc)
  | 92 :: 92 :: r, acc => parseStringUnits r (92 :: acc)
  | 92 :: 47 :: r, acc => parseStringUnits r (47 :: acc)
  | 92 :: 98 :: r, acc => parseStringUnits r (8 :: acc)
  | 92 :: 102 :: r, acc => parseStringUnits r (12 :: acc)
  | 92 :: 110 :: r, acc => parseStringUnits r (10 :: acc)
  | 92 :: 114 :: r, acc => parseStringUnits r (13 :: acc)
  | 92 :: 116 :: r, acc => parseStringUnits r (9 :: acc)
  | 92 :: 117 :: a :: b :: c :: d :: r, acc =>
    match hexVal a, hexVal b, hexVal c, hexVal d with
    | some x, some y, some z, some w =>
      parseStringUnits r ((((x * 16 + y) * 16 + z) * 16 + w) :: acc)
    | _, _, _, _ => none
  | 92 :: _, _ => none
  | c :: r, acc => if c < 32 then none else parseStringUnits r (c :: acc)

/-- A JSON string, read after its opening quote. -/
def parseString (cs : List Nat) : Option (String × List Nat) :=
  match parseStringUnits cs [] with
  | some (us, r) => some (unitsToString us, r)
  | none => none

/-- The longest run of decimal digits at the head of the input (as digit
values), and the rest. -/
def takeDigits : List Nat → List Nat → List Nat × List Nat
  | [], acc => (acc.reverse, [])
  | c :: r, acc =>
    if 48 ≤ c ∧ c ≤ 57 then takeDigits r ((c - 48) :: acc) else (acc.reverse, c :: r)

/-- The number written by a list of decimal digits. -/
def digitsVal (ds : List Nat) : Nat :=
  ds.foldl (fun n d => 10 * n + d) 0

/-- The optional fraction of a JSON number: its digits, and the rest. -/
def parseFraction : List Nat → Option (List Nat × List Nat)
  | 46 :: r =>
    match takeDigits r [] with
    | ([], _) => none
    | (fp, r2) => some (fp, r2)
  | cs => some ([], cs)

/-- The digits of an exponent, after `e` and its sign. -/
def parseExponentDigits (neg : Bool) (cs : List Nat) : Option (Int × List Nat) :=
  match takeDigits cs [] with
  | ([], _) => none
  | (ds, r) => some (if neg then -(digitsVal ds : Int) else (digitsVal ds : Int), r)

/-- The optional exponent of a JSON number: its value, and the rest. -/
def parseExponent : List Nat → Option (Int × List Nat)
  | 101 :: 43 :: r => parseExponentDigits false r
  | 101 :: 45 :: r => parseExponentDigits true r
  | 101 :: r => parseExponentDigits false r
  | 69 :: 43 :: r => parseExponentDigits false r
  | 69 :: 45 :: r => parseExponentDigits true r
  | 69 :: r => parseExponentDigits false r
  | cs => some (0, cs)

/-- A JSON number without its sign: integer part (no leading zero), optional
fraction, optional exponent; its value is the double nearest to the decimal
written. -/
def parseUnsigned (neg : Bool) (cs : List Nat) : Option (JsonValue × List Nat) :=
  match takeDigits cs [] with
  | ([], _) => none
  | (ip, r1) =>
    if ip.head? = some 0 ∧ 1 < ip.length then none
    else
      match parseFraction r1 with
      | none => none
      | some (fp, r2) =>
        match parseExponent r2 with
        | none => none
        | some (e, r3) =>
          some (JsonValue.num (JsNumber.ofDecimal neg (digitsVal (ip ++ fp)) (e - fp.length)), r3)

/-- A JSON number. 45 is the minus sign. -/
def parseNumber : List Nat → Option (JsonValue × List Nat)
  | 45 :: r => parseUnsigned true r
  | cs => parseUnsigned false cs

/-- The assignment `o[k] = v` on the own properties of an object: an existing
property keeps its place and takes the new value, a new one is added last. -/
def setField (k : String) (v : JsonValue) : List (String × JsonValue) → List (String × JsonValue)
  | [] => [(k, v)]
  | (k0, v0) :: r => if k0 = k then (k0, v) :: r else (k0, v0) :: setField k v r

/-- The lookup of an own property among the properties of an object. -/
def getField (k : String) : List (String × JsonValue) → Option JsonValue
  | [] => none
  | (k0, v0) :: r => if k0 = k then some v0 else getField k r

mutual
/-- A JSON value, with the white space before it. The first argument bounds
the number of nested calls; `JSONparse` gives enough of it. -/
def parseValue : Nat → List Nat → Option (JsonValue × List Nat)
  | 0, _ => none
  | fuel + 1, cs =>
    match skipWs cs with
    | 123 :: r =>
      match skipWs r with
      | 125 :: r2 => some (JsonValue.obj [], r2)
      | r2 => parseMembers fuel r2 []
    | 91 :: r =>
      match skipWs r with
      | 93 :: r2 => some (JsonValue.arr [], r2)
      | r2 => parseElements fuel r2 []
    | 34 :: r =>
      match parseString r with
      | some (s, r2) => some (JsonValue.str s, r2)
      | none => none
    | 116 :: 114 :: 117 :: 101 :: r => some (JsonValue.bool true, r)
    | 102 :: 97 :: 108 :: 115 :: 101 :: r => some (JsonValue.bool false, r)
    | 110 :: 117 :: 108 :: 108 :: r => some (JsonValue.null, r)
    | cs2 => parseNumber cs2
/-- The elements of a non-empty array, up to its closing bracket (93);
44 is the comma. -/
def parseElements : Nat → List Nat → List JsonValue → Option (JsonValue × List Nat)
  | 0, _, _ => none
  | fuel + 1, cs, acc =>
    match parseValue fuel cs with
    | none => none
    | some (v, r) =>
      match skipWs r with
      | 44 :: r2 => parseElements fuel r2 (acc ++ [v])
      | 93 :: r2 => some (JsonValue.arr (acc ++ [v]), r2)
      | _ => none
/-- The members of a non-empty object, up to its closing brace (125);
58 is the colon. A repeated key keeps its first place and its last value. -/
def parseMembers : Nat → List Nat → List (String × JsonValue) → Option (JsonValue × List Nat)
  | 0, _, _ => none
  | fuel + 1, cs, acc =>
    match skipWs cs with
    | 34 :: r =>
      match parseString r with
      | none => none
      | some (k, r2) =>
        match skipWs r2 with
        | 58 :: r3 =>
          match parseValue fuel r3 with
          | none => none
          | some (v, r4) =>
            match skipWs r4 with
            | 44 :: r5 => parseMembers fuel r5 (setField k v acc)
            | 125 :: r5 => some (JsonValue.obj (setField k v acc), r5)
            | _ => none
        | _ => none
    | _ => none
end

/-- The function `JSON.parse`: `none` stands for the `SyntaxError` it throws.
One value, white space around it, nothing else. Every nested call of the
parser consumes input, so twice the length of the input bounds the nesting. -/
def JSONparse (text : String) : Option JsonValue :=
  let cs := codeUnits text
  match parseValue (2 * cs.length + 2) cs with
  | some (v, r) => if (skipWs r).isEmpty then some v else none
  | none => none

/-! ## JavaScript conversions used by the handlers -/

/-- The conversion to boolean of `!v`, `v || w` and `v ? a : b`; `none` is
`undefined`. The falsy values are `undefined`, `null`, `false`, `0`, `-0`,
`NaN` and the empty string. -/
def truthy : Option JsonValue → Bool
  | none => false
  | some JsonValue.null => false
  | some (JsonValue.bool b) => b
  | some (JsonValue.num x) => x.truthy
  | some (JsonValue.str s) => decide (s ≠ "")
  | some (JsonValue.arr _) => true
  | some (JsonValue.obj _) => true

/-- The test `typeof v === "boolean"`. -/
def isBoolean : Option JsonValue → Bool
  | some (JsonValue.bool _) => true
  | _ => false

/-- The test `typeof v === "string"`. -/
def isString : Option JsonValue → Bool
  | some (JsonValue.str _) => true
  | _ => false

/-- The expression `a || b`. -/
def orElse (a b : Option JsonValue) : Option JsonValue :=
  if truthy a then a else b

mutual
/-- The conversion to string of a template literal, on a value; `none` is the
`TypeError` it throws. An array is joined with commas. A plain object is
`[object Object]`, unless it has an own property `toString`: a property read
from JSON is never a function, the inherited `valueOf` gives back the object,
and the conversion throws. -/
def toStr : JsonValue → Option String
  | JsonValue.null => some "null"
  | JsonValue.bool b => some (if b then "true" else "false")
  | JsonValue.num x => some (numberToString x)
  | JsonValue.str s => some s
  | JsonValue.arr xs => joinElements true xs
  | JsonValue.obj kvs =>
    if (getField "toString" kvs).isSome then none else some "[object Object]"
/-- The function `Array.prototype.join` with a comma: a `null` element
contributes the empty string, and the conversion of an element may throw. -/
def joinElements : Bool → List JsonValue → Option String
  | _, [] => some ""
  | first, x :: r =>
    match (match x with
        | JsonValue.null => some ""
        | v => toStr v), joinElements false r with
    | some a, some b => some ((if first then "" else ",") ++ a ++ b)
    | _, _ => none
end

/-- The conversion to string of a template literal. -/
def toStringJs : Option JsonValue → Option String
  | none => some "undefined"
  | some v => toStr v

/-- The property read `v[k]`, for a key that no prototype defines:
`undefined` unless `v` is an object with that own property. -/
def getProp (v : JsonValue) (k : String) : Option JsonValue :=
  match v with
  | JsonValue.obj kvs => getField k kvs
  | _ => none

/-- The own properties of an object without the key `k`. -/
def eraseField (k : String) (kvs : List (String × JsonValue)) : List (String × JsonValue) :=
  kvs.filter (fun kv => kv.1 != k)

/-- The object after `o[k] = v`, as `JSON.stringify` shows it: a property
whose value is `undefined` is left out. -/
def assignField (k : String) (v : Option JsonValue) (kvs : List (String × JsonValue)) :
    List (String × JsonValue) :=
  match v with
  | some w => setField k w kvs
  | none => eraseField k kvs

/-- A number as `JSON.stringify` writes it and a client reads it back:
`Infinity`, `-Infinity` and `NaN` are written `null`, and `-0` is written
`0`; every other number is written in digits that read back as itself. -/
def wireNumber : JsNumber → JsonValue
  | JsNumber.finite neg m e =>
    if m = 0 then JsonValue.num (JsNumber.finite false 0 0)
    else JsonValue.num (JsNumber.finite neg m e)
  | JsNumber.infinite _ => JsonValue.null
  | JsNumber.nan => JsonValue.null

mutual
/-- A value as `res.json` sends it, that is as `JSON.stringify` writes it and
a client reads it back: the same value, but for the numbers that JSON cannot
write, at any depth (see `wireNumber`). -/
def jsonWire : JsonValue → JsonValue
  | JsonValue.null => JsonValue.null
  | JsonValue.bool b => JsonValue.bool b
  | JsonValue.num x => wireNumber x
  | JsonValue.str s => JsonValue.str s
  | JsonValue.arr xs => JsonValue.arr (wireElements xs)
  | JsonValue.obj kvs => JsonValue.obj (wireFields kvs)
/-- The elements of an array as `res.json` sends them. -/
def wireElements : List JsonValue → List JsonValue
  | [] => []
  | x :: r => jsonWire x :: wireElements r
/-- The properties of an object as `res.json` sends them. -/
def wireFields : List (String × JsonValue) → List (String × JsonValue)
  | [] => []
  | (k, v) :: r => (k, jsonWire v) :: wireFields r
end

/-! ## `server.js`: prompt builder -/

/-- The function `buildSystemPrompt` of `server.js`, lines 72 to 93. -/
def buildSystemPrompt (isDirty : Option JsonValue) : String :=
  "You are an expert waste classification AI. \n"
    ++ "  RULES:\n"
    ++ "  - Categories: recyclable, compostable, hazardous, landfill, reusable.\n"
    ++ "  - Item state: " ++ (if truthy isDirty then "DIRTY/FOOD-SOILED" else "CLEAN") ++ ".\n"
    ++ "  - If DIRTY paper/cardboard -> prefer compostable or landfill.\n"
    ++ "  - If DIRTY plastic -> landfill.\n"
    ++ "  - Hazardous (batteries, tech, chemicals) always stay hazardous.\n"
    ++ "  - Provide a short eco_fact and a wishcycling_alert if applicable.\n"
    ++ "  \n"
    ++ "  Return valid JSON only:\n"
    ++ "  \x7b\n"
    ++ "    \"category\": \"string\",\n"
    ++ "    \"reason\": \"string\",\n"
    ++ "    \"eco_fact\": \"string\",\n"
    ++ "    \"contamination_warning\": \"string\",\n"
    ++ "    \"wishcycling_alert\": \"string\",\n"
    ++ "    \"disclaimer\": \"string\",\n"
    ++ "    \"co2_saved_kg\": number,\n"
    ++ "    \"item_detected\": \"string\"\n"
    ++ "  \x7d"

/-! ## `server.js`: the oracle and the two handlers -/

/-- What a handler passes to `model.generateContent`: a prompt, or a prompt
with an image part `inlineData: (data, mimeType)`. -/
inductive OracleInput where
  | text (prompt : String) : OracleInput
  | withImage (prompt : String) (data : Option JsonValue) (mimeType : Option JsonValue) : OracleInput

/-- What `model.generateContent` followed by `result.response.text()` does:
it throws (with some detail), or it yields the reply text. -/
inductive OracleOutcome where
  | threw (detail : String) : OracleOutcome
  | replied (text : String) : OracleOutcome

/-- The classification oracle. -/
abbrev Oracle := OracleInput → OracleOutcome

/-- An HTTP response: status code and JSON body. -/
structure Response where
  status : Nat
  body : JsonValue

/-- What a handler did: the response it sent, and the oracle invocations it
made, in order. -/
structure Handled where
  response : Response
  oracleCalls : List OracleInput

/-- The body `(error: message)` of an error response. -/
def errorBody (message : String) : JsonValue :=
  JsonValue.obj [("error", JsonValue.str message)]

/-- The statement `response.item_detected = response.item_detected || item`
of line 108, under `"use strict"`: `none` is the `TypeError` of reading a
property of `null` or of creating one on a primitive; on an array the new
property is not an element, so the array that `res.json` writes is the one
parsed. -/
def backfillItemDetected (response : JsonValue) (item : Option JsonValue) : Option JsonValue :=
  match response with
  | JsonValue.null => none
  | JsonValue.bool _ => none
  | JsonValue.num _ => none
  | JsonValue.str _ => none
  | JsonValue.arr xs => some (JsonValue.arr xs)
  | JsonValue.obj kvs =>
    some (JsonValue.obj
      (assignField "item_detected" (orElse (getField "item_detected" kvs) item) kvs))

/-- The prompt of line 103; `none` when the conversion of the item to a
string throws. -/
def textPrompt (item isDirty : Option JsonValue) : Option String :=
  match toStringJs item with
  | some text => some (buildSystemPrompt isDirty ++ "\n\nClassify this item: " ++ text)
  | none => none

/-- The answer of the `catch` block of lines 110 to 113. -/
def textFailure : Response :=
  { status := 500, body := errorBody "Gemini classification failed." }

/-- The handler of `POST /api/classify-text`, lines 98 to 114, on the parsed
request body (`express.json` hands it an object or an array). An exception
thrown inside the `try` block, by the template literal of line 103, by the
oracle, by `JSON.parse` or by line 108, is answered by the `catch` block. -/
def classifyTextHandler (oracle : Oracle) (body : JsonValue) : Handled :=
  let item := getProp body "item"
  let isDirty := getProp body "isDirty"
  if !truthy item || !isBoolean isDirty then
    { response := { status := 400, body := errorBody "Invalid input" }, oracleCalls := [] }
  else
    match textPrompt item isDirty with
    | none => { response := textFailure, oracleCalls := [] }
    | some prompt =>
      match oracle (OracleInput.text prompt) with
      | OracleOutcome.threw _ =>
        { response := textFailure, oracleCalls := [OracleInput.text prompt] }
      | OracleOutcome.replied responseText =>
        match JSONparse responseText with
        | none => { response := textFailure, oracleCalls := [OracleInput.text prompt] }
        | some response =>
          match backfillItemDetected response item with
          | none => { response := textFailure, oracleCalls := [OracleInput.text prompt] }
          | some assigned =>
            { response := { status := 200, body := jsonWire assigned },
              oracleCalls := [OracleInput.text prompt] }

/-- The prompt of line 122. -/
def imagePrompt (isDirty : Option JsonValue) : String :=
  buildSystemPrompt isDirty ++ "\nIdentify and classify the item in this image."

/-- The answer of the `catch` block of lines 133 to 136. -/
def imageFailure : Response :=
  { status := 500, body := errorBody "Gemini Vision failed." }

/-- The handler of `POST /api/classify-image`, lines 117 to 137. -/
def classifyImageHandler (oracle : Oracle) (body : JsonValue) : Handled :=
  let base64 := getProp body "base64"
  let mime := getProp body "mime"
  let isDirty := getProp body "isDirty"
  if !truthy base64 || !truthy mime then
    { response := { status := 400, body := errorBody "Missing image data" }, oracleCalls := [] }
  else
    let call := OracleInput.withImage (imagePrompt isDirty) base64 mime
    match oracle call with
    | OracleOutcome.threw _ => { response := imageFailure, oracleCalls := [call] }
    | OracleOutcome.replied responseText =>
      match JSONparse responseText with
      | none => { response := imageFailure, oracleCalls := [call] }
      | some response =>
        { response := { status := 200, body := jsonWire response }, oracleCalls := [call] }

/-! ## `server.js`: the origin check -/

/-- The white space and line terminators that `String.prototype.trim`
removes: tab, line feed, vertical tab, form feed, carriage return, space,
no-break space, the other space separators of Unicode, the line and paragraph
separators, and the byte order mark. -/
def isWhiteSpaceJs (c : Char) : Bool :=
  [9, 10, 11, 12, 13, 32, 160, 5760, 8232, 8233, 8239, 8287, 12288, 65279].contains c.toNat
    || (decide (8192 ≤ c.toNat) && decide (c.toNat ≤ 8202))

/-- The method `String.prototype.trim`: the string without the white space
at its start and at its end. -/
def jsTrim (s : String) : String :=
  String.mk ((s.toList.dropWhile isWhiteSpaceJs).rdropWhile isWhiteSpaceJs)

/-- The comma, the separator of line 17. -/
def comma : Char := Char.ofNat 44

/-- The method `String.prototype.split` with the separator `","`. -/
def splitOnComma (s : String) : List String :=
  (s.toList.splitOn comma).map String.mk

/-- The expression `process.env.ALLOWED_ORIGINS || ""`: the variable, or the
empty string when it is unset (`none`) or empty. -/
def envOrEmpty (env : Option String) : String :=
  match env with
  | some s => if s = "" then "" else s
  | none => ""

/-- The constant `ALLOWED_ORIGINS` of line 17, from the value of the
environment variable of that name: split on commas, every entry trimmed,
the empty entries filtered out. -/
def ALLOWED_ORIGINS (env : Option String) : List String :=
  ((splitOnComma (envOrEmpty env)).map jsTrim).filter (fun o => decide (o ≠ ""))

/-- The `origin` callback of lines 48 to 51, with the verdict it hands to
`cb`: `origin` is the `Origin` header of the request, `none` when the request
has none. -/
def corsOrigin (allowed : List String) (origin : Option String) : Bool :=
  match origin with
  | none => true
  | some o => if o = "" then true else allowed.contains o

/-! ## `server.js`: the CORS middleware and the rate limiter on `/api` -/

/-- A request as the middleware chain receives it: method, path (without the
query string), `Origin` header (`none` when the request has none), client
address and arrival time in milliseconds. -/
structure Request where
  method : String
  path : String
  origin : Option String
  ip : String
  time : Nat

/-- Whether the method of the request is `OPTIONS`, letter case ignored. -/
def isOptions (req : Request) : Bool :=
  req.method.toList.map Char.toUpper == "OPTIONS".toList

/-- Lines 47 to 54, the middleware of the `cors` dependency (not under
`src/`) with its documented defaults: when the origin check accepts the
request and its method is `OPTIONS`, the middleware answers the preflight
itself with status 204 and the request goes no further (`true`); every other
request is passed on to the next middleware, with CORS headers when the
check accepted it and without them when it did not. -/
def corsAnswersPreflight (env : Option String) (req : Request) : Bool :=
  corsOrigin (ALLOWED_ORIGINS env) req.origin && isOptions req

/-- The record the limiter keeps for one client: the hits counted in the
current window, and the time at which that window ends. -/
structure HitRecord where
  totalHits : Nat
  resetTime : Nat

/-- The limiter store: one record per client address that has one. -/
abbrev HitStore := String → Option HitRecord

/-- The option `windowMs: 60 * 1000` of line 58. -/
def windowMs : Nat := 60 * 1000

/-- The option `max: 12` of line 59. -/
def limiterMax : Nat := 12

/-- The hits counted for a client in the window that is current at `now`. -/
def hitsOf (store : HitStore) (key : String) (now : Nat) : Nat :=
  match store key with
  | some r => if now < r.resetTime then r.totalHits else 0
  | none => 0

/-- Modelled from the spec: the counting of the `express-rate-limit`
dependency, which is not under `src/`: a per-window counter keyed by client
identity, reset on window rollover. Returns the new store and the hits of
the client, this one included. -/
def increment (store : HitStore) (key : String) (now : Nat) : HitStore × Nat :=
  let hits := hitsOf store key now + 1
  let reset :=
    match store key with
    | some r => if now < r.resetTime then r.resetTime else now + windowMs
    | none => now + windowMs
  (fun k => if k = key then some { totalHits := hits, resetTime := reset } else store k, hits)

/-- Modelled from the spec: the middleware made by `rateLimit` at lines 57 to
61, from the `express-rate-limit` dependency: every request it receives is
counted for its client, and one beyond `max` in the window is answered with
the configured message and status 429 instead of being passed on (`none`). -/
def limiter (store : HitStore) (req : Request) : HitStore × Option Response :=
  let counted := increment store req.ip req.time
  if limiterMax < counted.2 then
    (counted.1,
      some { status := 429, body := errorBody "Rate limit reached. Please wait a minute." })
  else (counted.1, none)

/-- The path match of `app.use(mount, ...)` in Express: the path is the mount
path or continues it after a slash, letter case ignored. -/
def mountMatches (mount path : String) : Bool :=
  let p := path.toList.map Char.toLower
  p == mount.toList || (mount.toList ++ [Char.ofNat 47]).isPrefixOf p

/-- Line 62, `app.use("/api", limiter)`, on a request that reaches it: the
limiter runs when the path is under `/api`, whatever the route; every other
request goes on to the next middleware, the store untouched. -/
def apiLimiter (store : HitStore) (req : Request) : HitStore × Option Response :=
  if mountMatches "/api" req.path then limiter store req else (store, none)

/-- How a request leaves the middleware of lines 47 to 62. -/
inductive Passage where
  | preflightAnswered : Passage
  | rateLimited (response : Response) : Passage
  | passedOn : Passage

/-- Lines 47 to 62 in order: the CORS middleware, which ends the preflights it
answers, then the limiter on `/api`. (`helmet`, before them, only sets
headers.) Returns the limiter store afterwards and how the request left. -/
def corsThenLimiter (env : Option String) (store : HitStore) (req : Request) :
    HitStore × Passage :=
  if corsAnswersPreflight env req then (store, Passage.preflightAnswered)
  else
    match apiLimiter store req with
    | (store2, some response) => (store2, Passage.rateLimited response)
    | (store2, none) => (store2, Passage.passedOn)

/-- The store after a sequence of requests went through lines 47 to 62. -/
def afterRequests (env : Option String) (store : HitStore) (reqs : List Request) : HitStore :=
  reqs.foldl (fun s r => (corsThenLimiter env s r).1) store

/-- The store of a server that has counted nothing yet. -/
def emptyStore : HitStore := fun _ => none

/-! ## `EcoSort.jsx`: image resize and statistics

The target size of `resizeImage` is computed in exact rationals;
`resizeTargetRounded` is the same computation with its intermediate results
rounded. A decoded image has a width and a height of at least 1, and the
embedding of `resizeImage` is meant for such dimensions (for a zero dimension
JavaScript divides by zero and gets `Infinity`, which the rationals do not
have). `StatsTab` is computed in doubles, as the code computes it. -/

/-- The constant `MAX_IMG_PX` of line 4. -/
def MAX_IMG_PX : ℚ := 640

/-- The function `Math.round`: the nearest integer, a half going up. -/
def mathRound (x : ℚ) : ℤ := ⌊x + 1 / 2⌋

/-- Lines 22 to 27 of `resizeImage`: the width and height given to the
canvas, from the width and height of the decoded image. -/
def resizeTarget (width height : ℕ) : ℤ × ℤ :=
  if (width : ℚ) > MAX_IMG_PX ∨ (height : ℚ) > MAX_IMG_PX then
    let ratio := min (MAX_IMG_PX / width) (MAX_IMG_PX / height)
    (mathRound (width * ratio), mathRound (height * ratio))
  else (width, height)

/-- Lines 22 to 27 of `resizeImage` with the result of every division and
multiplication rounded by `fl`, as floating-point arithmetic rounds it. -/
def resizeTargetRounded (fl : ℚ → ℚ) (width height : ℕ) : ℤ × ℤ :=
  if (width : ℚ) > MAX_IMG_PX ∨ (height : ℚ) > MAX_IMG_PX then
    let ratio := min (fl (MAX_IMG_PX / width)) (fl (MAX_IMG_PX / height))
    (mathRound (fl (width * ratio)), mathRound (fl (height * ratio)))
  else (width, height)

/-- The error bound of rounding to the nearest IEEE double: a relative error
of at most `2 ^ (-53)`. -/
def RoundsLikeDouble (fl : ℚ → ℚ) : Prop :=
  ∀ x : ℚ, |fl x - x| ≤ |x| / 2 ^ 53

/-- The outcome of `resizeImage` on a decoded image, lines 22 to 37:
`canvas.toBlob` hands `null` to its callback when the canvas has no pixels
(a zero width or height), and line 32 then rejects with `toBlob failed`;
otherwise the canvas of the target size is encoded. -/
def resizeImage (width height : ℕ) : Except String (ℤ × ℤ) :=
  let target := resizeTarget width height
  if target.1 = 0 ∨ target.2 = 0 then Except.error "toBlob failed"
  else Except.ok target

/-- One entry of the session history, as far as `StatsTab` reads it: the
category, and `co2_saved_kg`, a number or absent (`none`). -/
structure HistoryEntry where
  category : String
  co2_saved_kg : Option JsNumber

/-- The expression `h.co2_saved_kg||0` of line 126. -/
def co2OrZero (h : HistoryEntry) : JsNumber :=
  match h.co2_saved_kg with
  | some x => if x.truthy then x else JsNumber.zero
  | none => JsNumber.zero

/-- The sum of a list of numbers as `reduce` computes it with `+`: from the
left, starting from `init`, every addition rounded to the nearest double. -/
def jsSum (init : JsNumber) (xs : List JsNumber) : JsNumber :=
  xs.foldl JsNumber.add init

/-- What `StatsTab` displays: items sorted, CO2 saved, eco score. -/
structure Stats where
  total : ℕ
  co2 : JsNumber
  score : JsNumber
  deriving DecidableEq

/-- The computation of `StatsTab`, lines 125 to 129. -/
def StatsTab (history : List HistoryEntry) : Stats :=
  let total := history.length
  let co2 := history.foldl (fun s h => s.add (co2OrZero h)) JsNumber.zero
  let score := JsNumber.min (JsNumber.round (co2.mul (JsNumber.ofNat 10))) (JsNumber.ofNat 100)
  { total := total, co2 := co2, score := score }

/-! ## Predicates of the specification -/

/-- The five legal values of `category` (spec, section 3). -/
def legalCategories : List String :=
  ["recyclable", "compostable", "hazardous", "landfill", "reusable"]

/-- The body has a `category` that is one of the five legal values. -/
def hasLegalCategory (body : JsonValue) : Bool :=
  match getProp body "category" with
  | some (JsonValue.str c) => legalCategories.contains c
  | _ => false

/-- The oracle failed: the call threw, or the reply text is not JSON. -/
def oracleFailed : OracleOutcome → Bool
  | OracleOutcome.threw _ => true
  | OracleOutcome.replied text => (JSONparse text).isNone

/-! ## Inputs of the scenarios -/

/-- An oracle that replies with the given text, whatever it is asked. -/
def repliesWith (text : String) : Oracle :=
  fun _ => OracleOutcome.replied text

/-- An oracle that throws with the given detail, whatever it is asked. -/
def throwsWith (detail : String) : Oracle :=
  fun _ => OracleOutcome.threw detail

/-- The body of a text request. -/
def textRequest (item isDirty : JsonValue) : JsonValue :=
  JsonValue.obj [("item", item), ("isDirty", isDirty)]

/-- The request of the spec's end-to-end scenario: `item = "pizza box"`,
`isDirty = true`. -/
def pizzaBoxRequest : JsonValue :=
  textRequest (JsonValue.str "pizza box") (JsonValue.bool true)

/-- The oracle reply of the spec's end-to-end scenario, as text. -/
def scenarioReplyText : String :=
  "\x7b\"category\":\"compostable\", \"item_detected\":\"pizza box\", "
    ++ "\"reason\":\"greasy cardboard\", \"eco_fact\":\"...\", \"co2_saved_kg\":0.05\x7d"

/-- The fields of the object that `scenarioReplyText` denotes. -/
def scenarioReplyFields : List (String × JsonValue) :=
  [("category", JsonValue.str "compostable"),
    ("item_detected", JsonValue.str "pizza box"),
    ("reason", JsonValue.str "greasy cardboard"),
    ("eco_fact", JsonValue.str "..."),
    ("co2_saved_kg", JsonValue.num (JsNumber.ofDecimal false 5 (-2)))]

/-- An oracle reply whose `item_detected` is `false` and whose `co2_saved_kg`
is a number too large for a double. -/
def overflowReplyText : String :=
  "\x7b\"category\":\"landfill\",\"item_detected\":false,\"co2_saved_kg\":1e400\x7d"

/-- An oracle that throws when it is given a text alone, and replies with
well-formed JSON when it is given an image. -/
def failsOnTextOnly : Oracle :=
  fun input =>
    match input with
    | OracleInput.text _ => OracleOutcome.threw "503 Service Unavailable"
    | OracleInput.withImage _ _ _ => OracleOutcome.replied "\x7b\"category\":\"landfill\"\x7d"

/-- The body of an image request. -/
def imageRequest (base64 mime isDirty : JsonValue) : JsonValue :=
  JsonValue.obj [("base64", base64), ("mime", mime), ("isDirty", isDirty)]

/-- A request `GET /api/health` without an `Origin` header, from one client
at time 0. -/
def healthRequest : Request :=
  { method := "GET", path := "/api/health", origin := none, ip := "203.0.113.7", time := 0 }

/-- Three history entries with `co2_saved_kg` 0.5, 1.2 and 3.0. -/
def scenarioHistory : List HistoryEntry :=
  [{ category := "compostable", co2_saved_kg := some (JsNumber.ofDecimal false 5 (-1)) },
    { category := "recyclable", co2_saved_kg := some (JsNumber.ofDecimal false 12 (-1)) },
    { category := "reusable", co2_saved_kg := some (JsNumber.ofDecimal false 30 (-1)) }]

set_option maxRecDepth 1000000
set_option exponentiation.threshold 4000

/-! ## Lemmas on the embedding -/

theorem getField_setField (k k2 : String) (v : JsonValue) (kvs : List (String × JsonValue)) :
    getField k2 (setField k v kvs) = if k2 = k then some v else getField k2 kvs := by
  induction kvs with
  | nil =>
    by_cases h : k2 = k
    · simp [setField, getField, h]
    · have h2 : ¬ k = k2 := fun e => h e.symm
      simp [setField, getField, h, h2]
  | cons kv r ih =>
    obtain ⟨k0, v0⟩ := kv
    by_cases h0 : k0 = k
    · by_cases h : k2 = k
      · simp [setField, getField, h0, h]
      · have h2 : ¬ k = k2 := fun e => h e.symm
        simp [setField, getField, h0, h, h2]
    · by_cases h : k0 = k2
      · have h3 : ¬ k2 = k := fun e => h0 (h.trans e)
        simp [setField, getField, h0, h, h3]
      · simp [setField, getField, h0, h, ih]

theorem getField_wireFields (k : String) (kvs : List (String × JsonValue)) :
    getField k (wireFields kvs) = (getField k kvs).map jsonWire := by
  induction kvs with
  | nil => simp [wireFields, getField]
  | cons kv r ih =>
    obtain ⟨k0, v0⟩ := kv
    by_cases h : k0 = k
    · simp [wireFields, getField, h]
    · simp [wireFields, getField, h, ih]

theorem getProp_jsonWire (v : JsonValue) (k : String) :
    getProp (jsonWire v) k = (getProp v k).map jsonWire := by
  cases v with
  | null => simp [jsonWire, getProp]
  | bool b => simp [jsonWire, getProp]
  | num x =>
    cases x with
    | finite neg m e =>
      by_cases hm : m = 0
      · simp [jsonWire, wireNumber, getProp, hm]
      · simp [jsonWire, wireNumber, getProp, hm]
    | infinite neg => simp [jsonWire, wireNumber, getProp]
    | nan => simp [jsonWire, wireNumber, getProp]
  | str s => simp [jsonWire, getProp]
  | arr xs => simp [jsonWire, getProp]
  | obj kvs => simp [jsonWire, getProp, getField_wireFields]

theorem hasLegalCategory_jsonWire (v : JsonValue) :
    hasLegalCategory (jsonWire v) = hasLegalCategory v := by
  unfold hasLegalCategory
  rw [getProp_jsonWire]
  cases hc : getProp v "category" with
  | none => rfl
  | some w =>
    cases w with
    | null => simp [jsonWire]
    | bool b => simp [jsonWire]
    | num x =>
      cases x with
      | finite neg m e =>
        by_cases hm : m = 0
        · simp [jsonWire, wireNumber, hm]
        · simp [jsonWire, wireNumber, hm]
      | infinite neg => simp [jsonWire, wireNumber]
      | nan => simp [jsonWire, wireNumber]
    | str s => simp [jsonWire]
    | arr xs => simp [jsonWire]
    | obj kvs => simp [jsonWire]

theorem truthy_str (s : String) (hs : s ≠ "") : truthy (some (JsonValue.str s)) = true := by
  simp [truthy, hs]

theorem orElse_isSome (a b : Option JsonValue) (hb : truthy b = true) :
    ∃ w, orElse a b = some w := by
  unfold orElse
  by_cases ht : truthy a = true
  · rw [if_pos ht]
    cases a with
    | none => simp [truthy] at ht
    | some w => exact ⟨w, rfl⟩
  · rw [if_neg ht]
    cases b with
    | none => simp [truthy] at hb
    | some w => exact ⟨w, rfl⟩

theorem textPrompt_str (s : String) (isDirty : Option JsonValue) :
    textPrompt (some (JsonValue.str s)) isDirty
      = some (buildSystemPrompt isDirty ++ "\n\nClassify this item: " ++ s) := rfl

theorem classifyText_invalid (oracle : Oracle) (body : JsonValue)
    (h : truthy (getProp body "item") = false ∨ isBoolean (getProp body "isDirty") = false) :
    classifyTextHandler oracle body =
      { response := { status := 400, body := errorBody "Invalid input" }, oracleCalls := [] } := by
  unfold classifyTextHandler
  rcases h with h | h <;> simp [h]

theorem classifyText_noPrompt (oracle : Oracle) (body : JsonValue)
    (h1 : truthy (getProp body "item") = true) (h2 : isBoolean (getProp body "isDirty") = true)
    (hp : textPrompt (getProp body "item") (getProp body "isDirty") = none) :
    classifyTextHandler oracle body = { response := textFailure, oracleCalls := [] } := by
  unfold classifyTextHandler
  simp [h1, h2, hp]

theorem classifyText_threw (oracle : Oracle) (body : JsonValue) (prompt detail : String)
    (h1 : truthy (getProp body "item") = true) (h2 : isBoolean (getProp body "isDirty") = true)
    (hp : textPrompt (getProp body "item") (getProp body "isDirty") = some prompt)
    (ho : oracle (OracleInput.text prompt) = OracleOutcome.threw detail) :
    classifyTextHandler oracle body =
      { response := textFailure, oracleCalls := [OracleInput.text prompt] } := by
  unfold classifyTextHandler
  simp [h1, h2, hp, ho]

theorem classifyText_unparseable (oracle : Oracle) (body : JsonValue) (prompt text : String)
    (h1 : truthy (getProp body "item") = true) (h2 : isBoolean (getProp body "isDirty") = true)
    (hp : textPrompt (getProp body "item") (getProp body "isDirty") = some prompt)
    (ho : oracle (OracleInput.text prompt) = OracleOutcome.replied text)
    (hj : JSONparse text = none) :
    classifyTextHandler oracle body =
      { response := textFailure, oracleCalls := [OracleInput.text prompt] } := by
  unfold classifyTextHandler
  simp [h1, h2, hp, ho, hj]

theorem classifyText_typeError (oracle : Oracle) (body : JsonValue) (prompt text : String)
    (reply : JsonValue)
    (h1 : truthy (getProp body "item") = true) (h2 : isBoolean (getProp body "isDirty") = true)
    (hp : textPrompt (getProp body "item") (getProp body "isDirty") = some prompt)
    (ho : oracle (OracleInput.text prompt) = OracleOutcome.replied text)
    (hj : JSONparse text = some reply)
    (hb : backfillItemDetected reply (getProp body "item") = none) :
    classifyTextHandler oracle body =
      { response := textFailure, oracleCalls := [OracleInput.text prompt] } := by
  unfold classifyTextHandler
  simp [h1, h2, hp, ho, hj, hb]

theorem classifyText_sent (oracle : Oracle) (body : JsonValue) (prompt text : String)
    (reply assigned : JsonValue)
    (h1 : truthy (getProp body "item") = true) (h2 : isBoolean (getProp body "isDirty") = true)
    (hp : textPrompt (getProp body "item") (getProp body "isDirty") = some prompt)
    (ho : oracle (OracleInput.text prompt) = OracleOutcome.replied text)
    (hj : JSONparse text = some reply)
    (hb : backfillItemDetected reply (getProp body "item") = some assigned) :
    classifyTextHandler oracle body =
      { response := { status := 200, body := jsonWire assigned },
        oracleCalls := [OracleInput.text prompt] } := by
  unfold classifyTextHandler
  simp [h1, h2, hp, ho, hj, hb]

theorem classifyText_valid_calls (oracle : Oracle) (body : JsonValue) (prompt : String)
    (h1 : truthy (getProp body "item") = true) (h2 : isBoolean (getProp body "isDirty") = true)
    (hp : textPrompt (getProp body "item") (getProp body "isDirty") = some prompt) :
    (classifyTextHandler oracle body).oracleCalls = [OracleInput.text prompt]
    ∧ ((classifyTextHandler oracle body).response.status = 200
      ∨ (classifyTextHandler oracle body).response.status = 500) := by
  cases ho : oracle (OracleInput.text prompt) with
  | threw d =>
    rw [classifyText_threw oracle body prompt d h1 h2 hp ho]
    exact ⟨rfl, Or.inr rfl⟩
  | replied text =>
    cases hj : JSONparse text with
    | none =>
      rw [classifyText_unparseable oracle body prompt text h1 h2 hp ho hj]
      exact ⟨rfl, Or.inr rfl⟩
    | some reply =>
      cases hbk : backfillItemDetected reply (getProp body "item") with
      | none =>
        rw [classifyText_typeError oracle body prompt text reply h1 h2 hp ho hj hbk]
        exact ⟨rfl, Or.inr rfl⟩
      | some assigned =>
        rw [classifyText_sent oracle body prompt text reply assigned h1 h2 hp ho hj hbk]
        exact ⟨rfl, Or.inl rfl⟩

theorem classifyImage_threw (oracle : Oracle) (body : JsonValue) (detail : String)
    (h1 : truthy (getProp body "base64") = true) (h2 : truthy (getProp body "mime") = true)
    (ho : oracle (OracleInput.withImage (imagePrompt (getProp body "isDirty"))
          (getProp body "base64") (getProp body "mime")) = OracleOutcome.threw detail) :
    classifyImageHandler oracle body =
      { response := imageFailure,
        oracleCalls := [OracleInput.withImage (imagePrompt (getProp body "isDirty"))
            (getProp body "base64") (getProp body "mime")] } := by
  unfold classifyImageHandler
  simp [h1, h2, ho]

theorem classifyImage_unparseable (oracle : Oracle) (body : JsonValue) (text : String)
    (h1 : truthy (getProp body "base64") = true) (h2 : truthy (getProp body "mime") = true)
    (ho : oracle (OracleInput.withImage (imagePrompt (getProp body "isDirty"))
          (getProp body "base64") (getProp body "mime")) = OracleOutcome.replied text)
    (hj : JSONparse text = none) :
    classifyImageHandler oracle body =
      { response := imageFailure,
        oracleCalls := [OracleInput.withImage (imagePrompt (getProp body "isDirty"))
            (getProp body "base64") (getProp body "mime")] } := by
  unfold classifyImageHandler
  simp [h1, h2, ho, hj]

theorem getProp_backfill_ne (response assigned : JsonValue) (item : Option JsonValue) (k : String)
    (hk : k ≠ "item_detected") (hi : truthy item = true)
    (h : backfillItemDetected response item = some assigned) :
    getProp assigned k = getProp response k := by
  cases response with
  | null => simp [backfillItemDetected] at h
  | bool b => simp [backfillItemDetected] at h
  | num x => simp [backfillItemDetected] at h
  | str s => simp [backfillItemDetected] at h
  | arr xs =>
    simp only [backfillItemDetected, Option.some.injEq] at h
    rw [← h]
  | obj kvs =>
    simp only [backfillItemDetected, Option.some.injEq] at h
    rw [← h]
    obtain ⟨w, hw⟩ := orElse_isSome (getField "item_detected" kvs) item hi
    simp only [getProp, assignField, hw, getField_setField, hk, if_false]

theorem mathRound_eq_iff (x : ℚ) (z : ℤ) :
    mathRound x = z ↔ (z : ℚ) ≤ x + 1 / 2 ∧ x + 1 / 2 < z + 1 := by
  unfold mathRound
  exact Int.floor_eq_iff

theorem mathRound_le (x : ℚ) (z : ℤ) (h : x < z + 1 / 2) : mathRound x ≤ z := by
  unfold mathRound
  have h2 : ⌊x + 1 / 2⌋ < z + 1 := by
    rw [Int.floor_lt]
    push_cast
    linarith
  omega

/-! ## The resize target under floating-point rounding -/

theorem RoundsLikeDouble.le_of_nonneg {fl : ℚ → ℚ} (hfl : RoundsLikeDouble fl) (x : ℚ) (hx : 0 ≤ x) :
    0 ≤ fl x ∧ fl x ≤ x * (1 + 1 / 2 ^ 53) := by
  have h := hfl x
  rw [abs_of_nonneg hx, abs_le] at h
  have hsmall : x / 2 ^ 53 ≤ x := div_le_self hx (by norm_num)
  constructor
  · linarith [h.1]
  · have : x * (1 + 1 / 2 ^ 53) = x + x / 2 ^ 53 := by ring
    rw [this]
    linarith [h.2]

theorem resizeTargetRounded_id (w h : ℕ) : resizeTargetRounded id w h = resizeTarget w h := rfl

theorem resizeTargetRounded_bounded_aux (fl : ℚ → ℚ) (u : ℚ) (hu0 : 0 ≤ 1 + u)
    (hu1 : 640 * (1 + u) * (1 + u) < 640 + 1 / 2) (hu2 : 640 / 641 * (1 + u) * (1 + u) ≤ 1)
    (hfl : ∀ x : ℚ, 0 ≤ x → 0 ≤ fl x ∧ fl x ≤ x * (1 + u)) (w h : ℕ)
    (hw : 1 ≤ w) (hh : 1 ≤ h) :
    max (resizeTargetRounded fl w h).1 (resizeTargetRounded fl w h).2 ≤ 640
    ∧ (resizeTargetRounded fl w h).1 ≤ w
    ∧ (resizeTargetRounded fl w h).2 ≤ h
    ∧ (w ≤ 640 → h ≤ 640 → resizeTargetRounded fl w h = ((w : ℤ), (h : ℤ))) := by
  have hwq : (0 : ℚ) < w := by exact_mod_cast hw
  have hhq : (0 : ℚ) < h := by exact_mod_cast hh
  by_cases hbig : (w : ℚ) > MAX_IMG_PX ∨ (h : ℚ) > MAX_IMG_PX
  · have e : resizeTargetRounded fl w h
        = (mathRound (fl (w * min (fl (MAX_IMG_PX / w)) (fl (MAX_IMG_PX / h)))),
            mathRound (fl (h * min (fl (MAX_IMG_PX / w)) (fl (MAX_IMG_PX / h))))) := by
      unfold resizeTargetRounded
      rw [if_pos hbig]
    rw [e]
    unfold MAX_IMG_PX at hbig ⊢
    set r := min (fl (640 / (w : ℚ))) (fl (640 / (h : ℚ))) with hr
    obtain ⟨ha0, ha⟩ := hfl (640 / (w : ℚ)) (by positivity)
    obtain ⟨hb0, hb⟩ := hfl (640 / (h : ℚ)) (by positivity)
    have hr0 : 0 ≤ r := le_min ha0 hb0
    have hra : r ≤ 640 / (w : ℚ) * (1 + u) := le_trans (min_le_left _ _) ha
    have hrb : r ≤ 640 / (h : ℚ) * (1 + u) := le_trans (min_le_right _ _) hb
    obtain ⟨_, hP⟩ := hfl ((w : ℚ) * r) (mul_nonneg hwq.le hr0)
    obtain ⟨_, hQ⟩ := hfl ((h : ℚ) * r) (mul_nonneg hhq.le hr0)
    have hwr : (w : ℚ) * r ≤ 640 * (1 + u) := by
      calc (w : ℚ) * r ≤ w * (640 / (w : ℚ) * (1 + u)) :=
            mul_le_mul_of_nonneg_left hra hwq.le
        _ = 640 * (1 + u) := by field_simp
    have hhr : (h : ℚ) * r ≤ 640 * (1 + u) := by
      calc (h : ℚ) * r ≤ h * (640 / (h : ℚ) * (1 + u)) :=
            mul_le_mul_of_nonneg_left hrb hhq.le
        _ = 640 * (1 + u) := by field_simp
    have hP640 : fl ((w : ℚ) * r) < 640 + 1 / 2 := by
      have : (w : ℚ) * r * (1 + u) ≤ 640 * (1 + u) * (1 + u) :=
        mul_le_mul_of_nonneg_right hwr hu0
      linarith
    have hQ640 : fl ((h : ℚ) * r) < 640 + 1 / 2 := by
      have : (h : ℚ) * r * (1 + u) ≤ 640 * (1 + u) * (1 + u) :=
        mul_le_mul_of_nonneg_right hhr hu0
      linarith
    -- when the other side is the large one, the ratio is below 640/641 up to rounding
    have hshrink : ∀ (a b : ℕ), 0 < (a : ℚ) → (640 : ℚ) < b →
        r ≤ 640 / (b : ℚ) * (1 + u) → fl ((a : ℚ) * r) ≤ (a : ℚ) * r * (1 + u) →
        fl ((a : ℚ) * r) < a + 1 / 2 := by
      intro a b ha hb641 hrb2 hfa
      have hbz : (641 : ℚ) ≤ b := by
        have : (640 : ℕ) < b := by exact_mod_cast hb641
        have : (641 : ℕ) ≤ b := this
        exact_mod_cast this
      have hdiv : 640 / (b : ℚ) ≤ 640 / 641 :=
        div_le_div_of_nonneg_left (by norm_num) (by norm_num) hbz
      have hr1 : r ≤ 640 / 641 * (1 + u) :=
        le_trans hrb2 (mul_le_mul_of_nonneg_right hdiv hu0)
      have h1 : (a : ℚ) * r ≤ a * (640 / 641 * (1 + u)) :=
        mul_le_mul_of_nonneg_left hr1 ha.le
      have h2 : (a : ℚ) * r * (1 + u)
          ≤ a * (640 / 641 * (1 + u)) * (1 + u) :=
        mul_le_mul_of_nonneg_right h1 hu0
      have h3 : (a : ℚ) * (640 / 641 * (1 + u)) * (1 + u) ≤ a := by
        have hc : (640 / 641 * (1 + u)) * (1 + u) ≤ (1 : ℚ) := hu2
        calc (a : ℚ) * (640 / 641 * (1 + u)) * (1 + u)
            = a * ((640 / 641 * (1 + u)) * (1 + u)) := by ring
          _ ≤ (a : ℚ) * 1 := mul_le_mul_of_nonneg_left hc ha.le
          _ = (a : ℚ) := mul_one _
      linarith
    have hPw : fl ((w : ℚ) * r) < w + 1 / 2 := by
      by_cases hwbig : (640 : ℚ) < w
      · linarith
      · have hhbig : (640 : ℚ) < h := by
          rcases hbig with hb | hb
          · exact absurd hb hwbig
          · exact hb
        exact hshrink w h hwq hhbig hrb hP
    have hQh : fl ((h : ℚ) * r) < h + 1 / 2 := by
      by_cases hhbig : (640 : ℚ) < h
      · linarith
      · have hwbig : (640 : ℚ) < w := by
          rcases hbig with hb | hb
          · exact hb
          · exact absurd hb hhbig
        exact hshrink h w hhq hwbig hra hQ
    refine ⟨max_le ?_ ?_, ?_, ?_, ?_⟩
    · exact mathRound_le _ 640 (by push_cast; linarith)
    · exact mathRound_le _ 640 (by push_cast; linarith)
    · exact mathRound_le _ w (by push_cast; linarith)
    · exact mathRound_le _ h (by push_cast; linarith)
    · intro h1 h2
      exfalso
      rcases hbig with hb | hb
      · have : (w : ℚ) ≤ 640 := by exact_mod_cast h1
        linarith
      · have : (h : ℚ) ≤ 640 := by exact_mod_cast h2
        linarith
  · have e : resizeTargetRounded fl w h = ((w : ℤ), (h : ℤ)) := by
      unfold resizeTargetRounded
      rw [if_neg hbig]
    rw [e]
    have hnb := not_or.mp hbig
    have h1 : (w : ℚ) ≤ 640 := by have := hnb.1; unfold MAX_IMG_PX at this; linarith
    have h2 : (h : ℚ) ≤ 640 := by have := hnb.2; unfold MAX_IMG_PX at this; linarith
    have h1z : (w : ℤ) ≤ 640 := by exact_mod_cast h1
    have h2z : (h : ℤ) ≤ 640 := by exact_mod_cast h2
    exact ⟨max_le h1z h2z, le_refl _, le_refl _, fun _ _ => rfl⟩

/-- The bounds of `resizeTarget` do not depend on arithmetic being exact: they
hold as well when every quotient and product is rounded with the relative
error of IEEE double arithmetic. -/
theorem resizeTargetRounded_bounded (fl : ℚ → ℚ) (hfl : RoundsLikeDouble fl) (w h : ℕ)
    (hw : 1 ≤ w) (hh : 1 ≤ h) :
    max (resizeTargetRounded fl w h).1 (resizeTargetRounded fl w h).2 ≤ 640
    ∧ (resizeTargetRounded fl w h).1 ≤ w
    ∧ (resizeTargetRounded fl w h).2 ≤ h
    ∧ (w ≤ 640 → h ≤ 640 → resizeTargetRounded fl w h = ((w : ℤ), (h : ℤ))) :=
  resizeTargetRounded_bounded_aux fl (1 / 2 ^ 53) (by norm_num) (by norm_num) (by norm_num)
    (fun x hx => hfl.le_of_nonneg x hx) w h hw hh

theorem RoundsLikeDouble.ge_of_nonneg {fl : ℚ → ℚ} (hfl : RoundsLikeDouble fl) (x : ℚ)
    (hx : 0 ≤ x) : x * (1 - 1 / 2 ^ 53) ≤ fl x := by
  have h := hfl x
  rw [abs_of_nonneg hx, abs_le] at h
  have : x * (1 - 1 / 2 ^ 53) = x - x / 2 ^ 53 := by ring
  rw [this]
  linarith [h.1]

/-- The failing input of C8 does not depend on arithmetic being exact: with
every quotient and product rounded with the relative error of IEEE double
arithmetic, the target of a 1281 by 1 image is still 640 by 0. -/
theorem resizeTargetRounded_empty_canvas (fl : ℚ → ℚ) (hfl : RoundsLikeDouble fl) :
    resizeTargetRounded fl 1281 1 = (640, 0) := by
  have e : resizeTargetRounded fl 1281 1
      = (mathRound (fl (1281 * min (fl (640 / 1281)) (fl (640 / 1)))),
          mathRound (fl (1 * min (fl (640 / 1281)) (fl (640 / 1))))) := by
    unfold resizeTargetRounded MAX_IMG_PX
    rw [if_pos (Or.inl (by norm_num))]
    norm_num
  rw [e]
  obtain ⟨_, ha⟩ := hfl.le_of_nonneg (640 / 1281) (by norm_num)
  have ha2 := hfl.ge_of_nonneg (640 / 1281) (by norm_num)
  have hb2 := hfl.ge_of_nonneg (640 / 1) (by norm_num)
  have hmin : min (fl (640 / 1281)) (fl (640 / 1)) = fl (640 / 1281) := by
    apply min_eq_left
    have h1 : (640 : ℚ) / 1281 * (1 + 1 / 2 ^ 53) ≤ 640 / 1 * (1 - 1 / 2 ^ 53) := by norm_num
    linarith
  rw [hmin]
  set r := fl (640 / 1281) with hr
  have hr0 : 0 ≤ r := le_trans (by norm_num) ha2
  obtain ⟨_, hP⟩ := hfl.le_of_nonneg (1281 * r) (by positivity)
  have hP2 := hfl.ge_of_nonneg (1281 * r) (by positivity)
  obtain ⟨hQ0, hQ⟩ := hfl.le_of_nonneg (1 * r) (by positivity)
  have hu : (0 : ℚ) ≤ 1 + 1 / 2 ^ 53 := by norm_num
  have hv : (0 : ℚ) ≤ 1 - 1 / 2 ^ 53 := by norm_num
  have hPup : fl (1281 * r) ≤ 640 / 1281 * (1 + 1 / 2 ^ 53) * 1281 * (1 + 1 / 2 ^ 53) := by
    have : 1281 * r * (1 + 1 / 2 ^ 53)
        ≤ 1281 * (640 / 1281 * (1 + 1 / 2 ^ 53)) * (1 + 1 / 2 ^ 53) :=
      mul_le_mul_of_nonneg_right (mul_le_mul_of_nonneg_left ha (by norm_num)) hu
    linarith
  have hPlo : 640 / 1281 * (1 - 1 / 2 ^ 53) * 1281 * (1 - 1 / 2 ^ 53) ≤ fl (1281 * r) := by
    have : 1281 * (640 / 1281 * (1 - 1 / 2 ^ 53)) * (1 - 1 / 2 ^ 53)
        ≤ 1281 * r * (1 - 1 / 2 ^ 53) :=
      mul_le_mul_of_nonneg_right (mul_le_mul_of_nonneg_left ha2 (by norm_num)) hv
    linarith
  have hQup : fl (1 * r) ≤ 640 / 1281 * (1 + 1 / 2 ^ 53) * (1 + 1 / 2 ^ 53) := by
    have : 1 * r * (1 + 1 / 2 ^ 53) ≤ 1 * (640 / 1281 * (1 + 1 / 2 ^ 53)) * (1 + 1 / 2 ^ 53) :=
      mul_le_mul_of_nonneg_right (mul_le_mul_of_nonneg_left ha (by norm_num)) hu
    linarith
  have c1 : (640 : ℚ) / 1281 * (1 + 1 / 2 ^ 53) * 1281 * (1 + 1 / 2 ^ 53) < 640 + 1 / 2 := by
    norm_num
  have c2 : (640 : ℚ) - 1 / 2 ≤ 640 / 1281 * (1 - 1 / 2 ^ 53) * 1281 * (1 - 1 / 2 ^ 53) := by
    norm_num
  have c3 : (640 : ℚ) / 1281 * (1 + 1 / 2 ^ 53) * (1 + 1 / 2 ^ 53) < 1 / 2 := by norm_num
  have hw : mathRound (fl (1281 * r)) = 640 := by
    rw [mathRound_eq_iff]
    push_cast
    constructor <;> linarith
  have hh : mathRound (fl (1 * r)) = 0 := by
    rw [mathRound_eq_iff]
    push_cast
    constructor <;> linarith
  rw [hw, hh]

/-! ## Lemmas on the order of doubles and on `StatsTab` -/

theorem JsNumber.lt_irrefl (a : JsNumber) : a.lt a = false := by
  cases a with
  | finite n m e => simp [JsNumber.lt]
  | infinite n => cases n <;> rfl
  | nan => rfl

theorem JsNumber.lt_asymm (a b : JsNumber) (h : a.lt b = true) : b.lt a = false := by
  cases a with
  | finite na ma ea =>
    cases b with
    | finite nb mb eb =>
      simp only [JsNumber.lt, decide_eq_true_eq] at h
      simp only [JsNumber.lt, decide_eq_false_iff_not, not_lt]
      rw [min_comm eb ea]
      exact le_of_lt h
    | infinite nb =>
      cases nb
      · rfl
      · simp [JsNumber.lt] at h
    | nan => rfl
  | infinite na =>
    cases b with
    | finite nb mb eb =>
      cases na
      · simp [JsNumber.lt] at h
      · rfl
    | infinite nb =>
      cases na <;> cases nb <;> simp [JsNumber.lt] at h ⊢
    | nan => rfl
  | nan => simp [JsNumber.lt] at h

theorem JsNumber.lt_nan (a : JsNumber) : a.lt JsNumber.nan = false := by
  cases a <;> rfl

theorem JsNumber.not_lt_min (a b : JsNumber) : b.lt (JsNumber.min a b) = false := by
  unfold JsNumber.min
  by_cases hn : (a.isNaN || b.isNaN) = true
  · rw [if_pos hn]
    exact JsNumber.lt_nan b
  · rw [if_neg hn]
    by_cases hab : a.lt b = true
    · rw [if_pos hab]
      exact JsNumber.lt_asymm a b hab
    · rw [if_neg hab]
      by_cases hba : b.lt a = true
      · rw [if_pos hba]
        exact JsNumber.lt_irrefl b
      · rw [if_neg hba]
        by_cases hneg : a.isNegative = true
        · rw [if_pos hneg]
          exact Bool.eq_false_iff.mpr hba
        · rw [if_neg hneg]
          exact JsNumber.lt_irrefl b

theorem StatsTab_co2 (history : List HistoryEntry) :
    (StatsTab history).co2 = jsSum JsNumber.zero (history.map co2OrZero) := by
  unfold StatsTab jsSum
  rw [List.foldl_map]

/-- Every addition of `StatsTab` is rounded to a double: for the two entries
0.06 and 0.59 it reports `0.6499999999999999` and the score 6. -/
theorem StatsTab_sum_is_rounded :
    numberToString (StatsTab
        [{ category := "recyclable", co2_saved_kg := some (JsNumber.ofDecimal false 6 (-2)) },
          { category := "recyclable", co2_saved_kg := some (JsNumber.ofDecimal false 59 (-2)) }]).co2
      = "0.6499999999999999"
    ∧ numberToString (StatsTab
        [{ category := "recyclable", co2_saved_kg := some (JsNumber.ofDecimal false 6 (-2)) },
          { category := "recyclable", co2_saved_kg := some (JsNumber.ofDecimal false 59 (-2)) }]).score
      = "6" :=
  ⟨by decide, by decide⟩

/-! ## C1: the category of a 200 answer -/

/-- C1 (counterexample): for the valid request `item = "pizza box"`,
`isDirty = true` and the oracle reply `("category":"banana")`, the handler
answers 200 with the category `banana`, which is not one of the five legal
values: the category is not validated. -/
theorem classifyText_out_of_enum_category_passes :
    (classifyTextHandler (repliesWith "\x7b\"category\":\"banana\"\x7d")
        pizzaBoxRequest).response.status = 200
    ∧ (classifyTextHandler (repliesWith "\x7b\"category\":\"banana\"\x7d")
        pizzaBoxRequest).response.body
      = JsonValue.obj [("category", JsonValue.str "banana"),
          ("item_detected", JsonValue.str "pizza box")]
    ∧ hasLegalCategory (classifyTextHandler (repliesWith "\x7b\"category\":\"banana\"\x7d")
        pizzaBoxRequest).response.body = false :=
  ⟨by rfl, by rfl, by rfl⟩

/-- C1 (amended): for every request with a non-empty string `item` and a
boolean `isDirty`, and every oracle, the response is either status 500 with
the body `(error: "Gemini classification failed.")`, or status 200 with a body
whose `category` is the `category` of the oracle's parsed reply, passed
through as `res.json` writes it, without validation: it is one of the five
legal values exactly when the oracle's is. -/
theorem classifyText_answer_passes_category_through (oracle : Oracle) (body : JsonValue)
    (s : String) (b : Bool)
    (hitem : getProp body "item" = some (JsonValue.str s)) (hs : s ≠ "")
    (hdirty : getProp body "isDirty" = some (JsonValue.bool b)) :
    (classifyTextHandler oracle body).response
        = { status := 500, body := errorBody "Gemini classification failed." }
      ∨ ∃ text reply,
          oracle (OracleInput.text (buildSystemPrompt (some (JsonValue.bool b))
              ++ "\n\nClassify this item: " ++ s))
            = OracleOutcome.replied text
          ∧ JSONparse text = some reply
          ∧ (classifyTextHandler oracle body).response.status = 200
          ∧ getProp (classifyTextHandler oracle body).response.body "category"
              = (getProp reply "category").map jsonWire
          ∧ hasLegalCategory (classifyTextHandler oracle body).response.body
              = hasLegalCategory reply := by
  have h1 : truthy (getProp body "item") = true := by rw [hitem]; exact truthy_str s hs
  have h2 : isBoolean (getProp body "isDirty") = true := by rw [hdirty]; rfl
  have hp : textPrompt (getProp body "item") (getProp body "isDirty")
      = some (buildSystemPrompt (some (JsonValue.bool b)) ++ "\n\nClassify this item: " ++ s) := by
    rw [hitem, hdirty]
    rfl
  cases ho : oracle (OracleInput.text (buildSystemPrompt (some (JsonValue.bool b))
      ++ "\n\nClassify this item: " ++ s)) with
  | threw d =>
    left
    rw [classifyText_threw oracle body _ d h1 h2 hp ho]
    rfl
  | replied text =>
    cases hj : JSONparse text with
    | none =>
      left
      rw [classifyText_unparseable oracle body _ text h1 h2 hp ho hj]
      rfl
    | some reply =>
      cases hbk : backfillItemDetected reply (getProp body "item") with
      | none =>
        left
        rw [classifyText_typeError oracle body _ text reply h1 h2 hp ho hj hbk]
        rfl
      | some assigned =>
        right
        rw [classifyText_sent oracle body _ text reply assigned h1 h2 hp ho hj hbk]
        have hcat := getProp_backfill_ne reply assigned _ "category" (by decide) h1 hbk
        refine ⟨text, reply, rfl, hj, rfl, ?_, ?_⟩
        · show getProp (jsonWire assigned) "category" = _
          rw [getProp_jsonWire, hcat]
        · show hasLegalCategory (jsonWire assigned) = _
          rw [hasLegalCategory_jsonWire]
          unfold hasLegalCategory
          rw [hcat]

/-- C1 (amended), at the request `item = "pizza box"`, `isDirty = true` and
an oracle that replies `("category":"recyclable")`. -/
theorem classifyText_answer_passes_category_through_witness :
    getProp pizzaBoxRequest "item" = some (JsonValue.str "pizza box")
    ∧ "pizza box" ≠ ""
    ∧ getProp pizzaBoxRequest "isDirty" = some (JsonValue.bool true)
    ∧ ((classifyTextHandler (repliesWith "\x7b\"category\":\"recyclable\"\x7d")
          pizzaBoxRequest).response
        = { status := 500, body := errorBody "Gemini classification failed." }
      ∨ ∃ text reply,
          repliesWith "\x7b\"category\":\"recyclable\"\x7d"
              (OracleInput.text (buildSystemPrompt (some (JsonValue.bool true))
                ++ "\n\nClassify this item: " ++ "pizza box"))
            = OracleOutcome.replied text
          ∧ JSONparse text = some reply
          ∧ (classifyTextHandler (repliesWith "\x7b\"category\":\"recyclable\"\x7d")
              pizzaBoxRequest).response.status = 200
          ∧ getProp (classifyTextHandler (repliesWith "\x7b\"category\":\"recyclable\"\x7d")
              pizzaBoxRequest).response.body "category"
            = (getProp reply "category").map jsonWire
          ∧ hasLegalCategory (classifyTextHandler
              (repliesWith "\x7b\"category\":\"recyclable\"\x7d") pizzaBoxRequest).response.body
            = hasLegalCategory reply) :=
  ⟨rfl, by decide, rfl,
    classifyText_answer_passes_category_through
      (repliesWith "\x7b\"category\":\"recyclable\"\x7d") pizzaBoxRequest
      "pizza box" true rfl (by decide) rfl⟩

/-! ## C2: an oracle failure is answered with a fixed message -/

/-- C2: on each of the two POST routes, for a request that passes the route's
input check, whenever the call made to the oracle throws or its reply text is
not parseable as JSON, the response is status 500 with the body `(error: m)`,
`m` being `Gemini classification failed.` on `/api/classify-text` and
`Gemini Vision failed.` on `/api/classify-image`: it depends neither on the
failure nor on the reply text. The two routes are independent: the oracle of
one may well answer on the other. -/
theorem oracle_failure_answer_is_fixed :
    (∀ (oracle : Oracle) (body : JsonValue) (prompt : String),
        truthy (getProp body "item") = true →
        isBoolean (getProp body "isDirty") = true →
        textPrompt (getProp body "item") (getProp body "isDirty") = some prompt →
        oracleFailed (oracle (OracleInput.text prompt)) = true →
        (classifyTextHandler oracle body).response
          = { status := 500, body := errorBody "Gemini classification failed." })
    ∧ (∀ (oracle : Oracle) (body : JsonValue),
        truthy (getProp body "base64") = true →
        truthy (getProp body "mime") = true →
        oracleFailed (oracle (OracleInput.withImage (imagePrompt (getProp body "isDirty"))
          (getProp body "base64") (getProp body "mime"))) = true →
        (classifyImageHandler oracle body).response
          = { status := 500, body := errorBody "Gemini Vision failed." }) := by
  constructor
  · intro oracle body prompt hitem hdirty hp hfail
    cases ho : oracle (OracleInput.text prompt) with
    | threw d =>
      rw [classifyText_threw oracle body prompt d hitem hdirty hp ho]
      rfl
    | replied text =>
      rw [ho] at hfail
      have hj : JSONparse text = none := Option.isNone_iff_eq_none.mp hfail
      rw [classifyText_unparseable oracle body prompt text hitem hdirty hp ho hj]
      rfl
  · intro oracle body hbase64 hmime hfail
    cases ho : oracle (OracleInput.withImage (imagePrompt (getProp body "isDirty"))
        (getProp body "base64") (getProp body "mime")) with
    | threw d =>
      rw [classifyImage_threw oracle body d hbase64 hmime ho]
      rfl
    | replied text =>
      rw [ho] at hfail
      have hj : JSONparse text = none := Option.isNone_iff_eq_none.mp hfail
      rw [classifyImage_unparseable oracle body text hbase64 hmime ho hj]
      rfl

/-- C2, at an oracle that throws when it is given a text alone and replies
with well-formed JSON when it is given an image, and at an oracle whose reply
to an image is not JSON. -/
theorem oracle_failure_answer_is_fixed_witness :
    (classifyTextHandler failsOnTextOnly pizzaBoxRequest).response
      = { status := 500, body := errorBody "Gemini classification failed." }
    ∧ (classifyImageHandler (repliesWith "not json")
        (imageRequest (JsonValue.str "UklGRg==") (JsonValue.str "image/webp")
          (JsonValue.bool false))).response
      = { status := 500, body := errorBody "Gemini Vision failed." } :=
  ⟨oracle_failure_answer_is_fixed.1 failsOnTextOnly pizzaBoxRequest
      (buildSystemPrompt (some (JsonValue.bool true)) ++ "\n\nClassify this item: " ++ "pizza box")
      (by rfl) (by rfl) (by rfl) (by rfl),
    oracle_failure_answer_is_fixed.2 (repliesWith "not json")
      (imageRequest (JsonValue.str "UklGRg==") (JsonValue.str "image/webp") (JsonValue.bool false))
      (by rfl) (by rfl) (by rfl)⟩

/-! ## C3: invalid input is refused before the oracle -/

/-- C3: when `item` is the empty string or absent, or `isDirty` is not a
boolean, the handler of `/api/classify-text` responds with status 400 and the
body `(error: "Invalid input")`, and invokes the oracle zero times. -/
theorem classifyText_invalid_input_refused (oracle : Oracle) (body : JsonValue)
    (h : getProp body "item" = none ∨ getProp body "item" = some (JsonValue.str "")
      ∨ isBoolean (getProp body "isDirty") = false) :
    (classifyTextHandler oracle body).response
        = { status := 400, body := errorBody "Invalid input" }
    ∧ (classifyTextHandler oracle body).oracleCalls = [] := by
  have hinv : truthy (getProp body "item") = false ∨ isBoolean (getProp body "isDirty") = false := by
    rcases h with h | h | h
    · left; rw [h]; rfl
    · left; rw [h]; rfl
    · right; exact h
  rw [classifyText_invalid oracle body hinv]
  exact ⟨rfl, rfl⟩

/-- C3, at the spec's case `item = ""`, `isDirty = true`, with an oracle that
would reply. -/
theorem classifyText_invalid_input_refused_witness :
    getProp (textRequest (JsonValue.str "") (JsonValue.bool true)) "item" = some (JsonValue.str "")
    ∧ (classifyTextHandler (repliesWith "\x7b\"category\":\"landfill\"\x7d")
        (textRequest (JsonValue.str "") (JsonValue.bool true))).response
        = { status := 400, body := errorBody "Invalid input" }
    ∧ (classifyTextHandler (repliesWith "\x7b\"category\":\"landfill\"\x7d")
        (textRequest (JsonValue.str "") (JsonValue.bool true))).oracleCalls = [] :=
  ⟨rfl,
    classifyText_invalid_input_refused (repliesWith "\x7b\"category\":\"landfill\"\x7d")
      (textRequest (JsonValue.str "") (JsonValue.bool true)) (Or.inr (Or.inl rfl))⟩

/-! ## C4: the reply is forwarded, `item_detected` backfilled -/

/-- C4 (counterexample): for the request `item = "pizza box"`,
`isDirty = true` and the oracle reply
`("category":"landfill","item_detected":false,"co2_saved_kg":1e400)`, which
parses to an object whose `item_detected` is present (`false`, not an empty
string) and whose `co2_saved_kg` is `Infinity`, the handler answers 200 with
`item_detected` replaced by the request's item, and with `co2_saved_kg` sent
as `null`: a field other than `item_detected` differs from the reply's. -/
theorem classifyText_reply_not_forwarded_unchanged :
    JSONparse overflowReplyText
      = some (JsonValue.obj [("category", JsonValue.str "landfill"),
          ("item_detected", JsonValue.bool false),
          ("co2_saved_kg", JsonValue.num (JsNumber.infinite false))])
    ∧ (classifyTextHandler (repliesWith overflowReplyText) pizzaBoxRequest).response.status = 200
    ∧ (classifyTextHandler (repliesWith overflowReplyText) pizzaBoxRequest).response.body
      = JsonValue.obj [("category", JsonValue.str "landfill"),
          ("item_detected", JsonValue.str "pizza box"),
          ("co2_saved_kg", JsonValue.null)] :=
  ⟨by rfl, by rfl, by rfl⟩

/-- C4 (amended): for a valid text request (non-empty string `item`, boolean
`isDirty`) and an oracle reply that parses to a JSON object `O`, the handler
calls the oracle once and answers 200 with an object that has, on every field
other than `item_detected`, the value of `O` as `res.json` writes it (the
same value, but for the numbers that JSON cannot write: `Infinity`, which a
number too large for a double parses to, is sent as `null`), and whose
`item_detected` is `O.item_detected` when that is truthy (present and not
`null`, `false`, `0` or the empty string), and is the request's `item`
otherwise. -/
theorem classifyText_forwards_reply (oracle : Oracle) (body : JsonValue) (s : String) (b : Bool)
    (text : String) (fields : List (String × JsonValue))
    (hitem : getProp body "item" = some (JsonValue.str s)) (hs : s ≠ "")
    (hdirty : getProp body "isDirty" = some (JsonValue.bool b))
    (horacle : oracle (OracleInput.text (buildSystemPrompt (some (JsonValue.bool b))
      ++ "\n\nClassify this item: " ++ s)) = OracleOutcome.replied text)
    (hparse : JSONparse text = some (JsonValue.obj fields)) :
    (classifyTextHandler oracle body).response.status = 200
    ∧ (classifyTextHandler oracle body).oracleCalls.length = 1
    ∧ ∃ sent, (classifyTextHandler oracle body).response.body = JsonValue.obj sent
        ∧ (∀ k, k ≠ "item_detected" → getField k sent = (getField k fields).map jsonWire)
        ∧ getField "item_detected" sent
            = if truthy (getField "item_detected" fields) = true
              then (getField "item_detected" fields).map jsonWire
              else some (JsonValue.str s) := by
  have h1 : truthy (getProp body "item") = true := by rw [hitem]; exact truthy_str s hs
  have h2 : isBoolean (getProp body "isDirty") = true := by rw [hdirty]; rfl
  have hp : textPrompt (getProp body "item") (getProp body "isDirty")
      = some (buildSystemPrompt (some (JsonValue.bool b)) ++ "\n\nClassify this item: " ++ s) := by
    rw [hitem, hdirty]
    rfl
  obtain ⟨w, hw⟩ := orElse_isSome (getField "item_detected" fields) (getProp body "item") h1
  have hb : backfillItemDetected (JsonValue.obj fields) (getProp body "item")
      = some (JsonValue.obj (setField "item_detected" w fields)) := by
    simp only [backfillItemDetected, assignField, hw]
  rw [classifyText_sent oracle body _ text _ _ h1 h2 hp horacle hparse hb]
  refine ⟨rfl, rfl, wireFields (setField "item_detected" w fields), rfl, ?_, ?_⟩
  · intro k hk
    rw [getField_wireFields, getField_setField, if_neg hk]
  · rw [getField_wireFields, getField_setField, if_pos rfl]
    unfold orElse at hw
    by_cases ht : truthy (getField "item_detected" fields) = true
    · rw [if_pos ht] at hw
      rw [if_pos ht, hw]
    · rw [if_neg ht, hitem] at hw
      rw [if_neg ht]
      injection hw with hw
      rw [← hw]
      rfl

/-- C4 (amended), at the spec's scenario: `item = "pizza box"`,
`isDirty = true`, and a reply with `category` `compostable`, `item_detected`
`pizza box` and `co2_saved_kg` 0.05; the body sent is the parsed reply,
unchanged. -/
theorem classifyText_forwards_reply_witness :
    JSONparse scenarioReplyText = some (JsonValue.obj scenarioReplyFields)
    ∧ (classifyTextHandler (repliesWith scenarioReplyText) pizzaBoxRequest).response.body
      = JsonValue.obj scenarioReplyFields
    ∧ (classifyTextHandler (repliesWith scenarioReplyText) pizzaBoxRequest).response.status = 200 :=
  ⟨by rfl, by rfl,
    (classifyText_forwards_reply (repliesWith scenarioReplyText) pizzaBoxRequest "pizza box" true
      scenarioReplyText scenarioReplyFields (by rfl) (by decide) (by rfl) (by rfl) (by rfl)).1⟩

/-! ## C5: an item that is not a string -/

/-- C5 (counterexample): the request `item = 5`, `isDirty = true` has an item
that is not a string, yet the handler does not answer 400: it calls the oracle
once, with a prompt that ends in `Classify this item: 5`, and answers 200. -/
theorem classifyText_number_item_reaches_oracle :
    isString (getProp (textRequest (JsonValue.num (JsNumber.ofNat 5)) (JsonValue.bool true))
      "item") = false
    ∧ (classifyTextHandler (repliesWith "\x7b\"category\":\"landfill\"\x7d")
        (textRequest (JsonValue.num (JsNumber.ofNat 5)) (JsonValue.bool true))).response.status
      = 200
    ∧ (classifyTextHandler (repliesWith "\x7b\"category\":\"landfill\"\x7d")
        (textRequest (JsonValue.num (JsNumber.ofNat 5)) (JsonValue.bool true))).oracleCalls
      = [OracleInput.text
          (buildSystemPrompt (some (JsonValue.bool true)) ++ "\n\nClassify this item: 5")] :=
  ⟨by rfl, by rfl, by rfl⟩

/-- C5 (amended): for a request whose `item` is present, of any type and in
particular not a string: when the item is falsy (`null`, `false`, `0` or the
empty string) or `isDirty` is not a boolean, the handler answers 400 with
`(error: "Invalid input")` and makes no oracle call; when the item is truthy
(a non-zero number, `true`, an array or an object, as well as a non-empty
string) and `isDirty` is a boolean, the request passes the check, and the
answer is not 400: the oracle is called once, with the item converted to a
string at the end of the prompt, when that conversion succeeds, and is not
called when the conversion throws (an object with an own property `toString`,
or an array that holds one), which the `catch` block answers with 500. -/
theorem classifyText_non_string_item (oracle : Oracle) (body : JsonValue) (v : JsonValue)
    (hitem : getProp body "item" = some v) :
    ((truthy (some v) = false ∨ isBoolean (getProp body "isDirty") = false) →
        (classifyTextHandler oracle body).response
            = { status := 400, body := errorBody "Invalid input" }
          ∧ (classifyTextHandler oracle body).oracleCalls = [])
    ∧ (truthy (some v) = true → isBoolean (getProp body "isDirty") = true →
        (classifyTextHandler oracle body).response.status ≠ 400
        ∧ (∀ converted, toStr v = some converted →
            (classifyTextHandler oracle body).oracleCalls
              = [OracleInput.text (buildSystemPrompt (getProp body "isDirty")
                  ++ "\n\nClassify this item: " ++ converted)])
        ∧ (toStr v = none →
            (classifyTextHandler oracle body).response
                = { status := 500, body := errorBody "Gemini classification failed." }
              ∧ (classifyTextHandler oracle body).oracleCalls = [])) := by
  constructor
  · intro h
    rw [← hitem] at h
    rw [classifyText_invalid oracle body h]
    exact ⟨rfl, rfl⟩
  · intro ht hb
    rw [← hitem] at ht
    rcases Option.eq_none_or_eq_some (toStr v) with hc | ⟨converted, hc⟩
    · have hp : textPrompt (getProp body "item") (getProp body "isDirty") = none := by
        rw [hitem]
        simp only [textPrompt, toStringJs, hc]
      rw [classifyText_noPrompt oracle body ht hb hp]
      refine ⟨by decide, ?_, ?_⟩
      · intro c2 hc2
        exact (Option.some_ne_none c2 (hc2.symm.trans hc)).elim
      · intro _
        exact ⟨rfl, rfl⟩
    · have hp : textPrompt (getProp body "item") (getProp body "isDirty")
          = some (buildSystemPrompt (getProp body "isDirty")
              ++ "\n\nClassify this item: " ++ converted) := by
        rw [hitem]
        simp only [textPrompt, toStringJs, hc]
      obtain ⟨hcalls, hstatus⟩ := classifyText_valid_calls oracle body _ ht hb hp
      refine ⟨?_, ?_, ?_⟩
      · rcases hstatus with h | h <;> rw [h] <;> decide
      · intro c2 hc2
        have e : converted = c2 := Option.some.inj (hc.symm.trans hc2)
        subst e
        exact hcalls
      · intro hnone
        exact (Option.some_ne_none converted (hc.symm.trans hnone)).elim

/-- C5 (amended), at the request `item = [1]`, `isDirty = true`, with an
oracle that throws: the array is not a string, is truthy and converts to `1`. -/
theorem classifyText_non_string_item_witness :
    getProp (textRequest (JsonValue.arr [JsonValue.num (JsNumber.ofNat 1)]) (JsonValue.bool true))
        "item"
      = some (JsonValue.arr [JsonValue.num (JsNumber.ofNat 1)])
    ∧ isString (some (JsonValue.arr [JsonValue.num (JsNumber.ofNat 1)])) = false
    ∧ (classifyTextHandler (throwsWith "503 Service Unavailable")
        (textRequest (JsonValue.arr [JsonValue.num (JsNumber.ofNat 1)])
          (JsonValue.bool true))).oracleCalls
      = [OracleInput.text (buildSystemPrompt (some (JsonValue.bool true))
          ++ "\n\nClassify this item: " ++ "1")] :=
  ⟨by rfl, by rfl,
    ((classifyText_non_string_item (throwsWith "503 Service Unavailable")
      (textRequest (JsonValue.arr [JsonValue.num (JsNumber.ofNat 1)]) (JsonValue.bool true))
      (JsonValue.arr [JsonValue.num (JsNumber.ofNat 1)]) (by rfl)).2 (by rfl) (by rfl)).2.1
      "1" (by rfl)⟩

/-! ## C6: the statistics of the history -/

/-- C6: for every history, `StatsTab` reports as total the number of entries,
as cumulative CO2 the sum of the entries' `co2_saved_kg` (an absent or zero
value counting as 0), added up from the left in doubles as `reduce` does with
`+`, and as score `min(round(10 * cumulative CO2), 100)`, which never exceeds
100; for entries with `co2_saved_kg` 0.5, 1.2 and 3.0 it reports total 3,
cumulative 4.7 and score 47. -/
theorem StatsTab_totals (history : List HistoryEntry) :
    (StatsTab history).total = history.length
    ∧ (StatsTab history).co2 = jsSum JsNumber.zero (history.map co2OrZero)
    ∧ co2OrZero { category := "landfill", co2_saved_kg := none } = JsNumber.zero
    ∧ co2OrZero { category := "landfill", co2_saved_kg := some JsNumber.zero } = JsNumber.zero
    ∧ (StatsTab history).score
        = JsNumber.min (JsNumber.round ((StatsTab history).co2.mul (JsNumber.ofNat 10)))
            (JsNumber.ofNat 100)
    ∧ (JsNumber.ofNat 100).lt (StatsTab history).score = false
    ∧ StatsTab scenarioHistory
        = { total := 3, co2 := JsNumber.ofDecimal false 47 (-1), score := JsNumber.ofNat 47 }
    ∧ numberToString (StatsTab scenarioHistory).co2 = "4.7"
    ∧ numberToString (StatsTab scenarioHistory).score = "47" := by
  refine ⟨rfl, StatsTab_co2 history, by rfl, by rfl, rfl, ?_, by decide, by decide, by decide⟩
  exact JsNumber.not_lt_min _ _

/-! ## C7: the resize target is bounded and never larger than the image -/

/-- C7: for an image of width `w ≥ 1` and height `h ≥ 1`, the target
dimensions computed by `resizeImage` with `MAX_IMG_PX = 640` are both at most
640 and at most the input dimensions; when both `w ≤ 640` and `h ≤ 640` they
are the input dimensions: the image is only scaled down, never up. -/
theorem resizeTarget_bounded (w h : ℕ) (hw : 1 ≤ w) (hh : 1 ≤ h) :
    max (resizeTarget w h).1 (resizeTarget w h).2 ≤ 640
    ∧ (resizeTarget w h).1 ≤ w
    ∧ (resizeTarget w h).2 ≤ h
    ∧ (w ≤ 640 → h ≤ 640 → resizeTarget w h = ((w : ℤ), (h : ℤ))) := by
  have hwq : (0 : ℚ) < w := by exact_mod_cast hw
  have hhq : (0 : ℚ) < h := by exact_mod_cast hh
  by_cases hbig : (w : ℚ) > MAX_IMG_PX ∨ (h : ℚ) > MAX_IMG_PX
  · have hr1 : min (MAX_IMG_PX / w) (MAX_IMG_PX / h) ≤ MAX_IMG_PX / w := min_le_left _ _
    have hr2 : min (MAX_IMG_PX / w) (MAX_IMG_PX / h) ≤ MAX_IMG_PX / h := min_le_right _ _
    have hlt1 : min (MAX_IMG_PX / w) (MAX_IMG_PX / h) < 1 := by
      rcases hbig with hb | hb
      · exact lt_of_le_of_lt hr1 ((div_lt_one hwq).mpr hb)
      · exact lt_of_le_of_lt hr2 ((div_lt_one hhq).mpr hb)
    have hw640 : (w : ℚ) * min (MAX_IMG_PX / w) (MAX_IMG_PX / h) ≤ 640 := by
      calc (w : ℚ) * min (MAX_IMG_PX / w) (MAX_IMG_PX / h)
          ≤ w * (MAX_IMG_PX / w) := mul_le_mul_of_nonneg_left hr1 hwq.le
        _ = 640 := by rw [mul_div_cancel₀ _ hwq.ne']; rfl
    have hh640 : (h : ℚ) * min (MAX_IMG_PX / w) (MAX_IMG_PX / h) ≤ 640 := by
      calc (h : ℚ) * min (MAX_IMG_PX / w) (MAX_IMG_PX / h)
          ≤ h * (MAX_IMG_PX / h) := mul_le_mul_of_nonneg_left hr2 hhq.le
        _ = 640 := by rw [mul_div_cancel₀ _ hhq.ne']; rfl
    have hww : (w : ℚ) * min (MAX_IMG_PX / w) (MAX_IMG_PX / h) < w := by
      calc (w : ℚ) * min (MAX_IMG_PX / w) (MAX_IMG_PX / h)
          < w * 1 := mul_lt_mul_of_pos_left hlt1 hwq
        _ = w := mul_one _
    have hhh : (h : ℚ) * min (MAX_IMG_PX / w) (MAX_IMG_PX / h) < h := by
      calc (h : ℚ) * min (MAX_IMG_PX / w) (MAX_IMG_PX / h)
          < h * 1 := mul_lt_mul_of_pos_left hlt1 hhq
        _ = h := mul_one _
    have e : resizeTarget w h
        = (mathRound (w * min (MAX_IMG_PX / w) (MAX_IMG_PX / h)),
            mathRound (h * min (MAX_IMG_PX / w) (MAX_IMG_PX / h))) := by
      unfold resizeTarget
      rw [if_pos hbig]
    rw [e]
    refine ⟨max_le ?_ ?_, ?_, ?_, ?_⟩
    · exact mathRound_le _ 640 (by push_cast; linarith)
    · exact mathRound_le _ 640 (by push_cast; linarith)
    · exact mathRound_le _ w (by push_cast; linarith)
    · exact mathRound_le _ h (by push_cast; linarith)
    · intro h1 h2
      exfalso
      rcases hbig with hb | hb
      · have : (w : ℚ) ≤ 640 := by exact_mod_cast h1
        unfold MAX_IMG_PX at hb
        linarith
      · have : (h : ℚ) ≤ 640 := by exact_mod_cast h2
        unfold MAX_IMG_PX at hb
        linarith
  · have e : resizeTarget w h = ((w : ℤ), (h : ℤ)) := by
      unfold resizeTarget
      rw [if_neg hbig]
    rw [e]
    have hnb := not_or.mp hbig
    have h1 : (w : ℚ) ≤ 640 := by have := hnb.1; unfold MAX_IMG_PX at this; linarith
    have h2 : (h : ℚ) ≤ 640 := by have := hnb.2; unfold MAX_IMG_PX at this; linarith
    have h1z : (w : ℤ) ≤ 640 := by exact_mod_cast h1
    have h2z : (h : ℤ) ≤ 640 := by exact_mod_cast h2
    exact ⟨max_le h1z h2z, le_refl _, le_refl _, fun _ _ => rfl⟩

/-- C7, at a 4000 by 3000 image: the target is 640 by 480. -/
theorem resizeTarget_bounded_witness :
    resizeTarget 4000 3000 = (640, 480)
    ∧ max (resizeTarget 4000 3000).1 (resizeTarget 4000 3000).2 ≤ 640
    ∧ (resizeTarget 4000 3000).1 ≤ (4000 : ℕ)
    ∧ (resizeTarget 4000 3000).2 ≤ (3000 : ℕ)
    ∧ ((4000 : ℕ) ≤ 640 → (3000 : ℕ) ≤ 640
        → resizeTarget 4000 3000 = (((4000 : ℕ) : ℤ), ((3000 : ℕ) : ℤ))) :=
  ⟨by simp only [resizeTarget, MAX_IMG_PX]; norm_num [mathRound_eq_iff],
    resizeTarget_bounded 4000 3000 (by decide) (by decide)⟩

/-! ## C8: the resize target can be empty -/

/-- C8 (failing input): for the decodable image of width 1281 and height 1,
the target height is `round(1 * 640 / 1281) = 0`: the canvas is empty and
`resizeImage` rejects with `toBlob failed`. -/
theorem resizeImage_empty_canvas :
    resizeTarget 1281 1 = (640, 0)
    ∧ resizeImage 1281 1 = Except.error "toBlob failed" := by
  have h : resizeTarget 1281 1 = (640, 0) := by
    simp only [resizeTarget, MAX_IMG_PX]
    norm_num [mathRound_eq_iff]
  refine ⟨h, ?_⟩
  unfold resizeImage
  rw [h]
  rfl

/-! ## C9: the instruction text of a text request -/

/-- C9: for a valid text request, the text handed to the oracle is
`buildSystemPrompt(isDirty)`, then the separator
`"\n\nClassify this item: "`, then the item verbatim; the first part depends
on `isDirty` only. So two requests with the same item and the same `isDirty`
give the same text, whatever else differs (the rest of the body, the oracle),
and two requests with the same `isDirty` give texts that differ in the
appended item only. -/
theorem classifyText_prompt (oracle1 oracle2 : Oracle) (body1 body2 : JsonValue)
    (s1 s2 : String) (b : Bool)
    (hitem1 : getProp body1 "item" = some (JsonValue.str s1)) (hs1 : s1 ≠ "")
    (hitem2 : getProp body2 "item" = some (JsonValue.str s2)) (hs2 : s2 ≠ "")
    (hdirty1 : getProp body1 "isDirty" = some (JsonValue.bool b))
    (hdirty2 : getProp body2 "isDirty" = some (JsonValue.bool b)) :
    (classifyTextHandler oracle1 body1).oracleCalls
        = [OracleInput.text (buildSystemPrompt (some (JsonValue.bool b))
            ++ "\n\nClassify this item: " ++ s1)]
    ∧ (classifyTextHandler oracle2 body2).oracleCalls
        = [OracleInput.text (buildSystemPrompt (some (JsonValue.bool b))
            ++ "\n\nClassify this item: " ++ s2)]
    ∧ (s1 = s2 →
        (classifyTextHandler oracle1 body1).oracleCalls
          = (classifyTextHandler oracle2 body2).oracleCalls) := by
  have key : ∀ (oracle : Oracle) (body : JsonValue) (s : String),
      getProp body "item" = some (JsonValue.str s) → s ≠ "" →
      getProp body "isDirty" = some (JsonValue.bool b) →
      (classifyTextHandler oracle body).oracleCalls
        = [OracleInput.text (buildSystemPrompt (some (JsonValue.bool b))
            ++ "\n\nClassify this item: " ++ s)] := by
    intro oracle body s hitem hs hdirty
    have h1 : truthy (getProp body "item") = true := by rw [hitem]; exact truthy_str s hs
    have h2 : isBoolean (getProp body "isDirty") = true := by rw [hdirty]; rfl
    have hp : textPrompt (getProp body "item") (getProp body "isDirty")
        = some (buildSystemPrompt (some (JsonValue.bool b))
            ++ "\n\nClassify this item: " ++ s) := by
      rw [hitem, hdirty]
      rfl
    exact (classifyText_valid_calls oracle body _ h1 h2 hp).1
  refine ⟨key oracle1 body1 s1 hitem1 hs1 hdirty1, key oracle2 body2 s2 hitem2 hs2 hdirty2, ?_⟩
  intro h
  rw [key oracle1 body1 s1 hitem1 hs1 hdirty1, key oracle2 body2 s2 hitem2 hs2 hdirty2, h]

/-- C9, at the requests `item = "pizza box"` and `item = "battery"`, both
with `isDirty = true`, and two different oracles. -/
theorem classifyText_prompt_witness :
    (classifyTextHandler (repliesWith scenarioReplyText) pizzaBoxRequest).oracleCalls
        = [OracleInput.text (buildSystemPrompt (some (JsonValue.bool true))
            ++ "\n\nClassify this item: " ++ "pizza box")]
    ∧ (classifyTextHandler (throwsWith "quota")
        (textRequest (JsonValue.str "battery") (JsonValue.bool true))).oracleCalls
        = [OracleInput.text (buildSystemPrompt (some (JsonValue.bool true))
            ++ "\n\nClassify this item: " ++ "battery")]
    ∧ ("pizza box" = "battery" →
        (classifyTextHandler (repliesWith scenarioReplyText) pizzaBoxRequest).oracleCalls
          = (classifyTextHandler (throwsWith "quota")
              (textRequest (JsonValue.str "battery") (JsonValue.bool true))).oracleCalls) :=
  classifyText_prompt (repliesWith scenarioReplyText) (throwsWith "quota") pizzaBoxRequest
    (textRequest (JsonValue.str "battery") (JsonValue.bool true)) "pizza box" "battery" true
    (by rfl) (by decide) (by rfl) (by decide) (by rfl) (by rfl)

/-! ## C10: the scope of the rate limiter -/

/-- C10 (counterexample): `GET /api/health` is counted against the limit (one
such request on a fresh server leaves one hit for its client), and after
twelve of them within the window the thirteenth `GET /api/health` receives the
rate-limit error. -/
theorem health_request_is_rate_limited :
    hitsOf (corsThenLimiter none emptyStore healthRequest).1 healthRequest.ip healthRequest.time
      = 1
    ∧ (corsThenLimiter none (afterRequests none emptyStore (List.replicate 12 healthRequest))
        healthRequest).2
      = Passage.rateLimited
          { status := 429, body := errorBody "Rate limit reached. Please wait a minute." } :=
  ⟨by rfl, by rfl⟩

/-- C10 (amended): the rate limiter (12 requests per 60-second window and
client) is scoped by the path prefix `/api`, not by route. A request whose
path is outside `/api` is never counted and never receives the rate-limit
error. A request whose path is `/api` or under it, and which reaches the
limiter, is counted, and receives the rate-limit error exactly when its client
already has 12 hits in the window: this holds for the two classification
routes and for `/api/health` alike. The requests that do not reach the limiter
are the preflights that the CORS middleware answers before it (method
`OPTIONS`, origin accepted): they are not counted. -/
theorem apiLimiter_scope (env : Option String) (store : HitStore) (req : Request) :
    (mountMatches "/api" req.path = false →
        (corsThenLimiter env store req).1 = store
        ∧ ∀ response, (corsThenLimiter env store req).2 ≠ Passage.rateLimited response)
    ∧ (mountMatches "/api" req.path = true → corsAnswersPreflight env req = false →
        hitsOf (corsThenLimiter env store req).1 req.ip req.time
          = hitsOf store req.ip req.time + 1
        ∧ (hitsOf store req.ip req.time < 12 →
            (corsThenLimiter env store req).2 = Passage.passedOn)
        ∧ (12 ≤ hitsOf store req.ip req.time →
            (corsThenLimiter env store req).2
              = Passage.rateLimited
                  { status := 429, body := errorBody "Rate limit reached. Please wait a minute." }))
    ∧ (corsAnswersPreflight env req = true →
        corsThenLimiter env store req = (store, Passage.preflightAnswered))
    ∧ mountMatches "/api" "/api/classify-text" = true
    ∧ mountMatches "/api" "/api/classify-image" = true
    ∧ mountMatches "/api" "/api/health" = true := by
  refine ⟨?_, ?_, ?_, by rfl, by rfl, by rfl⟩
  · intro h
    by_cases hc : corsAnswersPreflight env req = true
    · have e : corsThenLimiter env store req = (store, Passage.preflightAnswered) := by
        unfold corsThenLimiter
        rw [if_pos hc]
      rw [e]
      exact ⟨rfl, fun response hr => Passage.noConfusion hr⟩
    · have e : corsThenLimiter env store req = (store, Passage.passedOn) := by
        unfold corsThenLimiter apiLimiter
        rw [if_neg hc, h]
        rfl
      rw [e]
      exact ⟨rfl, fun response hr => Passage.noConfusion hr⟩
  · intro h hc
    have hlim : limiter store req
        = if limiterMax < hitsOf store req.ip req.time + 1 then
            ((increment store req.ip req.time).1,
              some { status := 429, body := errorBody "Rate limit reached. Please wait a minute." })
          else ((increment store req.ip req.time).1, none) := rfl
    have e : corsThenLimiter env store req
        = if limiterMax < hitsOf store req.ip req.time + 1 then
            ((increment store req.ip req.time).1,
              Passage.rateLimited
                { status := 429, body := errorBody "Rate limit reached. Please wait a minute." })
          else ((increment store req.ip req.time).1, Passage.passedOn) := by
      unfold corsThenLimiter apiLimiter
      rw [hc, if_pos h, hlim]
      by_cases hm : limiterMax < hitsOf store req.ip req.time + 1
      · simp only [if_pos hm]
        rfl
      · simp only [if_neg hm]
        rfl
    refine ⟨?_, ?_, ?_⟩
    · have hstore : (corsThenLimiter env store req).1 = (increment store req.ip req.time).1 := by
        rw [e]
        split <;> rfl
      rw [hstore]
      unfold increment hitsOf
      simp only [if_true]
      cases hs : store req.ip with
      | none => simp [windowMs]
      | some r =>
        by_cases hlt : req.time < r.resetTime
        · simp [hlt]
        · simp [hlt, windowMs]
    · intro hlt
      have : ¬ limiterMax < hitsOf store req.ip req.time + 1 := by
        unfold limiterMax
        omega
      rw [e, if_neg this]
    · intro hge
      have : limiterMax < hitsOf store req.ip req.time + 1 := by
        unfold limiterMax
        omega
      rw [e, if_pos this]
  · intro hc
    unfold corsThenLimiter
    rw [if_pos hc]

/-- C10 (amended), at a request for a static page, outside `/api`, on a server
where its client is already over the limit, at a thirteenth
`POST /api/classify-text` of that client, and at a preflight of the same
client. -/
theorem apiLimiter_scope_witness :
    mountMatches "/api" "/index.html" = false
    ∧ (corsThenLimiter none (afterRequests none emptyStore (List.replicate 13 healthRequest))
        { method := "GET", path := "/index.html", origin := none, ip := "203.0.113.7",
          time := 0 }).1
      = afterRequests none emptyStore (List.replicate 13 healthRequest)
    ∧ 12 ≤ hitsOf (afterRequests none emptyStore (List.replicate 12 healthRequest))
        "203.0.113.7" 0
    ∧ (corsThenLimiter none (afterRequests none emptyStore (List.replicate 12 healthRequest))
        { method := "POST", path := "/api/classify-text", origin := none, ip := "203.0.113.7",
          time := 0 }).2
      = Passage.rateLimited
          { status := 429, body := errorBody "Rate limit reached. Please wait a minute." }
    ∧ corsThenLimiter none (afterRequests none emptyStore (List.replicate 12 healthRequest))
        { method := "OPTIONS", path := "/api/classify-text", origin := none,
          ip := "203.0.113.7", time := 0 }
      = (afterRequests none emptyStore (List.replicate 12 healthRequest),
          Passage.preflightAnswered) :=
  ⟨by rfl,
    ((apiLimiter_scope none (afterRequests none emptyStore (List.replicate 13 healthRequest))
      { method := "GET", path := "/index.html", origin := none, ip := "203.0.113.7",
        time := 0 }).1 (by rfl)).1,
    by decide,
    ((apiLimiter_scope none (afterRequests none emptyStore (List.replicate 12 healthRequest))
      { method := "POST", path := "/api/classify-text", origin := none, ip := "203.0.113.7",
        time := 0 }).2.1 (by rfl) (by rfl)).2.2 (by decide),
    (apiLimiter_scope none (afterRequests none emptyStore (List.replicate 12 healthRequest))
      { method := "OPTIONS", path := "/api/classify-text", origin := none,
        ip := "203.0.113.7", time := 0 }).2.2.1 (by rfl)⟩

/-! ## Lemmas on `split` and `trim` -/

theorem not_mem_of_mem_splitOn (x : Char) (l : List Char) :
    ∀ p ∈ l.splitOn x, x ∉ p := by
  unfold List.splitOn
  induction l with
  | nil =>
    intro p hp
    simp only [List.splitOnP_nil, List.mem_singleton] at hp
    subst hp
    exact List.not_mem_nil x
  | cons c r ih =>
    intro p hp
    rw [List.splitOnP_cons] at hp
    by_cases hc : (c == x) = true
    · rw [if_pos hc] at hp
      rcases List.mem_cons.mp hp with h | h
      · subst h
        exact List.not_mem_nil x
      · exact ih p h
    · rw [if_neg hc] at hp
      cases hs : List.splitOnP (fun y => y == x) r with
      | nil => rw [hs] at hp; simp at hp
      | cons q qs =>
        rw [hs] at hp ih
        simp only [List.modifyHead_cons, List.mem_cons] at hp
        rcases hp with h | h
        · subst h
          intro hmem
          rcases List.mem_cons.mp hmem with h1 | h1
          · exact hc (by rw [h1]; exact beq_self_eq_true c)
          · exact ih q (List.mem_cons_self q qs) h1
        · exact ih p (List.mem_cons_of_mem q h)

/-- The model of `split(",")` is the split on commas: the entries joined with
commas give back the string, and no entry contains a comma. -/
theorem splitOnComma_spec (s : String) :
    [comma].intercalate ((splitOnComma s).map String.toList) = s.toList
    ∧ ∀ e ∈ splitOnComma s, comma ∉ e.toList := by
  constructor
  · have : (splitOnComma s).map String.toList = s.toList.splitOn comma := by
      unfold splitOnComma
      rw [List.map_map]
      have hid : (String.toList ∘ String.mk) = id := by
        funext l
        rfl
      rw [hid, List.map_id]
    rw [this, List.intercalate_splitOn]
  · intro e he
    unfold splitOnComma at he
    obtain ⟨l, hl, rfl⟩ := List.mem_map.mp he
    exact not_mem_of_mem_splitOn comma s.toList l hl

/-- The model of `trim`: the string is white space, then the trimmed string,
then white space, and the trimmed string neither starts nor ends with white
space. -/
theorem jsTrim_spec (s : String) :
    (∃ before after : List Char,
        s.toList = before ++ (jsTrim s).toList ++ after
        ∧ (∀ c ∈ before, isWhiteSpaceJs c = true) ∧ (∀ c ∈ after, isWhiteSpaceJs c = true))
    ∧ (∀ c, (jsTrim s).toList.head? = some c → isWhiteSpaceJs c = false)
    ∧ (∀ c, (jsTrim s).toList.getLast? = some c → isWhiteSpaceJs c = false) := by
  have ht : (jsTrim s).toList
      = (s.toList.dropWhile isWhiteSpaceJs).rdropWhile isWhiteSpaceJs := rfl
  rw [ht]
  have hsplit : ∀ l : List Char,
      l.rdropWhile isWhiteSpaceJs ++ l.rtakeWhile isWhiteSpaceJs = l := by
    intro l
    unfold List.rdropWhile List.rtakeWhile
    rw [← List.reverse_append, List.takeWhile_append_dropWhile, List.reverse_reverse]
  refine ⟨⟨s.toList.takeWhile isWhiteSpaceJs,
      (s.toList.dropWhile isWhiteSpaceJs).rtakeWhile isWhiteSpaceJs, ?_, ?_, ?_⟩, ?_, ?_⟩
  · rw [List.append_assoc, hsplit, List.takeWhile_append_dropWhile]
  · intro c hc
    exact List.mem_takeWhile_imp hc
  · intro c hc
    exact List.mem_rtakeWhile_imp hc
  · intro c hc
    have hne : (s.toList.dropWhile isWhiteSpaceJs).rdropWhile isWhiteSpaceJs ≠ [] := by
      intro h
      rw [h] at hc
      simp at hc
    have hpre := List.rdropWhile_prefix isWhiteSpaceJs (l := s.toList.dropWhile isWhiteSpaceJs)
    obtain ⟨rest, hrest⟩ := hpre
    have hd : (s.toList.dropWhile isWhiteSpaceJs).head? = some c := by
      rw [← hrest, List.head?_append_of_ne_nil _ hne]
      exact hc
    have hnot := List.head?_dropWhile_not isWhiteSpaceJs s.toList
    rw [hd] at hnot
    exact hnot
  · intro c hc
    have hne : (s.toList.dropWhile isWhiteSpaceJs).rdropWhile isWhiteSpaceJs ≠ [] := by
      intro h
      rw [h] at hc
      simp at hc
    rw [List.getLast?_eq_getLast _ hne] at hc
    have hlast := List.rdropWhile_last_not isWhiteSpaceJs (s.toList.dropWhile isWhiteSpaceJs) hne
    injection hc with hc
    rw [hc] at hlast
    exact Bool.eq_false_iff.mpr hlast

/-! ## C11: the origin check -/

/-- C11: the origin check accepts a request exactly when it carries no origin
(no `Origin` header, or an empty one) or its origin is a member of the
allow-list; the allow-list holds exactly the non-empty strings that are a
trimmed entry of the `ALLOWED_ORIGINS` configuration string split on commas;
and with an unset or empty configuration the allow-list is empty, so that
every request that carries a non-empty origin is refused. -/
theorem corsOrigin_accepts_iff (env origin : Option String) :
    (corsOrigin (ALLOWED_ORIGINS env) origin = true
      ↔ (origin = none ∨ origin = some "")
        ∨ ∃ o, origin = some o ∧ o ∈ ALLOWED_ORIGINS env)
    ∧ (∀ o, o ∈ ALLOWED_ORIGINS env
      ↔ o ≠ "" ∧ ∃ entry, entry ∈ splitOnComma (envOrEmpty env) ∧ jsTrim entry = o)
    ∧ ((env = none ∨ env = some "") →
        ALLOWED_ORIGINS env = []
        ∧ ∀ o, o ≠ "" → corsOrigin (ALLOWED_ORIGINS env) (some o) = false) := by
  refine ⟨?_, ?_, ?_⟩
  · cases origin with
    | none => simp [corsOrigin]
    | some o =>
      by_cases ho : o = ""
      · simp [corsOrigin, ho]
      · simp [corsOrigin, ho]
  · intro o
    unfold ALLOWED_ORIGINS
    simp only [List.mem_filter, List.mem_map, decide_eq_true_eq]
    constructor
    · rintro ⟨⟨e, he, rfl⟩, hne⟩
      exact ⟨hne, e, he, rfl⟩
    · rintro ⟨hne, e, he, rfl⟩
      exact ⟨⟨e, he, rfl⟩, hne⟩
  · intro h
    have hempty : ALLOWED_ORIGINS env = [] := by
      rcases h with h | h <;> subst h <;> rfl
    refine ⟨hempty, ?_⟩
    intro o ho
    rw [hempty]
    simp [corsOrigin, ho]

/-- C11, at an unset configuration and the origin `https://evil.example`,
which is refused; at the configuration
`" https://a.example , ,https://b.example,, "`, whose allow-list is
`https://a.example` and `https://b.example`, the second is accepted. -/
theorem corsOrigin_accepts_iff_witness :
    corsOrigin (ALLOWED_ORIGINS none) (some "https://evil.example") = false
    ∧ ALLOWED_ORIGINS (some " https://a.example , ,https://b.example,, ")
      = ["https://a.example", "https://b.example"]
    ∧ (corsOrigin (ALLOWED_ORIGINS (some " https://a.example , ,https://b.example,, "))
          (some "https://b.example") = true
      ↔ (some "https://b.example" = none ∨ some "https://b.example" = some "")
        ∨ ∃ o, some "https://b.example" = some o
          ∧ o ∈ ALLOWED_ORIGINS (some " https://a.example , ,https://b.example,, ")) :=
  ⟨((corsOrigin_accepts_iff none (some "https://evil.example")).2.2 (Or.inl rfl)).2
      "https://evil.example" (by decide),
    by decide,
    (corsOrigin_accepts_iff (some " https://a.example , ,https://b.example,, ")
      (some "https://b.example")).1⟩

end EcoSort
